import Mathlib

/-!
Verification development for the Smart Carbon Monitoring System analytics
engine: a shallow embedding of the `CarbonDataAnalyzer` and
`ReportGenerator` components into Lean, with theorems checking their
documented behaviour.

Modelling conventions:

* JavaScript numbers are modelled as rationals (`ℚ`).  `x.toFixed(k)` and
  `parseFloat(x.toFixed(k))` are modelled by rounding to `k` decimal
  places (`round2`, `round4` below); the display string and the number it
  denotes are identified except where the claims are about the rendered
  string itself (`decStr`, `numStr`).
* Timestamps are modelled by a day number (days since the Unix epoch) plus
  an hour of day.  This is exactly the granularity the analytics observe:
  every grouping key is built from year/month/day/hour, and a calendar
  date key such as `"2024-03-01"` corresponds bijectively to its day
  number, so keys are represented by day numbers (rendered back into date
  strings only where the code emits them).
* JavaScript division of nonzero by zero yields `Infinity` and `0/0`
  yields `NaN`.  Where the code can actually perform such divisions — the
  z-scores of `detectAnomalies` — the result is modelled by an explicit
  `ZScore` type with `nan` and `inf` values; everywhere else the code
  guards its divisions, and `ℚ` division agrees with the guarded use.
* JavaScript objects used as insertion-ordered maps (`grouped[key]`) are
  modelled by association lists updated with `upsertKey`; `Array.sort`
  (stable in JS) is modelled by the stable `List.insertionSort`.
-/

attribute [local semireducible] Rat.add Rat.mul Rat.inv Rat.sub

/-- A calendar timestamp at the granularity the analytics observe:
`day` counts days since the Unix epoch and `hour` is the hour of day. -/
structure Ts where
  day : ℤ
  hour : ℕ
  deriving DecidableEq

/-- The numeric value of a timestamp in hours, inducing the same order as
the millisecond values that `new Date(...)` comparisons and sorting use. -/
def Ts.val (t : Ts) : ℤ := t.day * 24 + t.hour

/-- Day of week of a day number, `0` = Sunday (1970-01-01 was a Thursday);
models `Date.prototype.getDay`, which always yields `0..6`. -/
def dayOfWeek (d : ℤ) : ℕ := ((d + 4) % 7).toNat

/-- The recognized optional keys of a reading's `metadata` object. -/
structure Meta where
  buildingName : Option String := none
  buildingType : Option String := none
  deviceType : Option String := none
  deriving DecidableEq

/-- One timestamped emission/energy record. -/
structure Reading where
  id : String
  timestamp : Ts
  buildingId : String
  deviceId : String
  energyConsumption : ℚ
  carbonEmissions : ℚ
  temperature : Option ℚ := none
  humidity : Option ℚ := none
  metadata : Option Meta := none
  deriving DecidableEq

/-- `item.metadata?.buildingName` -/
def Reading.metaBuildingName (r : Reading) : Option String :=
  r.metadata.bind Meta.buildingName

/-- `item.metadata?.deviceType` -/
def Reading.metaDeviceType (r : Reading) : Option String :=
  r.metadata.bind Meta.deviceType

/-- `parseFloat(x.toFixed(2))`: round to 2 decimal places. -/
def round2 (q : ℚ) : ℚ := (round (q * 100) : ℤ) / 100

/-- `parseFloat(x.toFixed(4))`: round to 4 decimal places. -/
def round4 (q : ℚ) : ℚ := (round (q * 10000) : ℤ) / 10000

/-- Update-or-append on an association list, the JavaScript pattern
`if (!m[k]) m[k] = init; …update m[k]…` on an object used as an
insertion-ordered map: if the key is present its first entry is updated
by `upd`, otherwise the entry `upd ini` is appended at the end. -/
def upsertKey {κ β : Type} [DecidableEq κ] (k : κ) (ini : β) (upd : β → β) :
    List (κ × β) → List (κ × β)
  | [] => [(k, upd ini)]
  | (k', v) :: rest =>
    if k' = k then (k', upd v) :: rest else (k', v) :: upsertKey k ini upd rest

/-- First value stored under key `k` (JavaScript property lookup). -/
def findVal {κ β : Type} [DecidableEq κ] (k : κ) : List (κ × β) → Option β
  | [] => none
  | (k', v) :: rest => if k' = k then some v else findVal k rest

/-- Running a fold of updates over a list, starting from `v` (the value
accumulated for one group across the readings that hit it). -/
def groupRun {α β : Type} (upd : α → β → β) (v : β) (l : List α) : β :=
  l.foldl (fun b r => upd r b) v

/-- The value a group holds after folding `l` into it, starting from an
optional previous value: `none` stays `none` on no hits, a first hit
creates `upd r (ini r)`, later hits update. -/
def groupValFrom {α β : Type} (ini : α → β) (upd : α → β → β) :
    Option β → List α → Option β
  | some v, fl => some (groupRun upd v fl)
  | none, [] => none
  | none, r :: rest => some (groupRun upd (upd r (ini r)) rest)

/-- `toString n` left-padded with zeros to `k` digits. -/
def natPad (n : ℕ) (k : ℕ) : String :=
  let s := toString n
  String.mk (List.replicate (k - s.length) '0') ++ s

/-- `x.toFixed(k)`: the decimal string with exactly `k` fraction digits. -/
def decStr (k : ℕ) (q : ℚ) : String :=
  let scaled : ℤ := round (q * (10 : ℚ) ^ k)
  let sign := if scaled < 0 then "-" else ""
  let a := scaled.natAbs
  if k = 0 then sign ++ toString a
  else sign ++ toString (a / 10 ^ k) ++ "." ++ natPad (a % 10 ^ k) k

/-- The number of decimal digits needed to write `q` exactly (values in
report output always have denominator dividing `10^4`, so the bound 10 is
never reached; it only keeps the search total). -/
def decExp (q : ℚ) : ℕ := ((List.range 10).filter (fun k => (q * 10 ^ k).den = 1)).headD 0

/-- JavaScript number-to-string conversion for the terminating decimals
the reports emit: shortest decimal form, no trailing zeros (`12.5` not
`"12.50"`, `12` not `"12.00"`). -/
def numStr (q : ℚ) : String :=
  if q.den = 1 then toString q.num else decStr (decExp q) q

namespace CarbonDataAnalyzer

/-- Result shape of `getStatistics`.  The source renders every numeric
field with `toFixed(2)`; the fields here hold the rounded numeric values
those strings denote.  `dateRange` holds the extreme timestamp values
(`Math.min`/`Math.max` of `getTime()`, in hours). -/
structure Statistics where
  count : ℕ
  emissionsTotal : ℚ
  emissionsAvg : ℚ
  emissionsMin : ℚ
  emissionsMax : ℚ
  energyTotal : ℚ
  energyAvg : ℚ
  energyMin : ℚ
  energyMax : ℚ
  dateRange : Option (ℤ × ℤ)
  deriving DecidableEq

/-- `Math.min(...)` over a nonempty list given as head and tail. -/
def foldMin (x : ℚ) (l : List ℚ) : ℚ := l.foldl min x

/-- `Math.max(...)` over a nonempty list given as head and tail. -/
def foldMax (x : ℚ) (l : List ℚ) : ℚ := l.foldl max x

/-- `getStatistics()` from `CarbonDataAnalyzer.js`. -/
def getStatistics (data : List Reading) : Statistics :=
  match data with
  | [] => ⟨0, 0, 0, 0, 0, 0, 0, 0, 0, none⟩
  | r :: rs =>
    let emissions := (r :: rs).map Reading.carbonEmissions
    let energy := (r :: rs).map Reading.energyConsumption
    let times := (r :: rs).map (fun x => x.timestamp.val)
    { count := (r :: rs).length
      emissionsTotal := round2 emissions.sum
      emissionsAvg := round2 (emissions.sum / emissions.length)
      emissionsMin := round2 (foldMin r.carbonEmissions (rs.map Reading.carbonEmissions))
      emissionsMax := round2 (foldMax r.carbonEmissions (rs.map Reading.carbonEmissions))
      energyTotal := round2 energy.sum
      energyAvg := round2 (energy.sum / energy.length)
      energyMin := round2 (foldMin r.energyConsumption (rs.map Reading.energyConsumption))
      energyMax := round2 (foldMax r.energyConsumption (rs.map Reading.energyConsumption))
      dateRange := some (times.foldl min r.timestamp.val, times.foldl max r.timestamp.val) }

/-- Population mean: `values.reduce((s,v) => s+v, 0) / values.length`. -/
def popMean (l : List ℚ) : ℚ := l.sum / l.length

/-- Population variance (mean squared deviation).  The source takes the
standard deviation `Math.sqrt` of this; square roots leave `ℚ`, so the
variance is kept and every comparison the code performs on the standard
deviation is phrased in squared form (see `ZScore`). -/
def popVar (l : List ℚ) : ℚ := (l.map (fun x => (x - popMean l) ^ 2)).sum / l.length

/-- Mean of `carbonEmissions` over the data set. -/
def emissionsMean (data : List Reading) : ℚ := popMean (data.map Reading.carbonEmissions)

/-- Population variance of `carbonEmissions` (square of `emissionsStdDev`). -/
def emissionsVar (data : List Reading) : ℚ := popVar (data.map Reading.carbonEmissions)

/-- Mean of `energyConsumption` over the data set. -/
def energyMean (data : List Reading) : ℚ := popMean (data.map Reading.energyConsumption)

/-- Population variance of `energyConsumption` (square of `energyStdDev`). -/
def energyVar (data : List Reading) : ℚ := popVar (data.map Reading.energyConsumption)

/-- The value `(x - mean) / stdDev` as JavaScript computes it, observed up
to absolute value: `nan` for `0/0` (zero variance and `x = mean`), `inf`
for nonzero over zero, and otherwise `fin sq` with `sq = (x-mean)^2 / var`
(so `|z| = √sq`; the sign of `z` only appears inside display strings and
is never compared by the code, so it is not tracked). -/
inductive ZScore where
  | nan : ZScore
  | inf : ZScore
  | fin (sq : ℚ) : ZScore
  deriving DecidableEq

/-- `(x - mean) / stdDev` where `var = stdDev²`. -/
def zscore (x mean var : ℚ) : ZScore :=
  if var = 0 then (if x = mean then .nan else .inf) else .fin ((x - mean) ^ 2 / var)

/-- `Math.abs(z) > t` with JavaScript semantics: `NaN` comparisons are
false and `Infinity` exceeds everything; for finite `z`, `|z| > t` iff
`z² > t²` when `0 ≤ t` and is vacuously true when `t < 0`. -/
def ZScore.absGt (z : ZScore) (t : ℚ) : Bool :=
  match z with
  | .nan => false
  | .inf => true
  | .fin sq => if t < 0 then true else decide (t ^ 2 < sq)

/-- `Math.abs(a) > Math.abs(b)` on two z-scores (JavaScript semantics:
any comparison involving `NaN` is false). -/
def ZScore.absGtAbs : ZScore → ZScore → Bool
  | .nan, _ => false
  | _, .nan => false
  | .inf, .inf => false
  | .inf, .fin _ => true
  | .fin _, .inf => false
  | .fin p, .fin q => decide (q < p)

/-- Which metric the anomaly's `reason` text cites (the full text
interpolates the metric value and z-score; only the branch is modelled). -/
inductive AnomalyReason where
  | unusualEmissions : AnomalyReason
  | unusualEnergy : AnomalyReason
  deriving DecidableEq

/-- An anomaly record as pushed by `detectAnomalies`. -/
structure Anomaly where
  id : String
  timestamp : Ts
  buildingId : String
  deviceId : String
  carbonEmissions : ℚ
  energyConsumption : ℚ
  emissionsZScore : ZScore
  energyZScore : ZScore
  reason : AnomalyReason
  deriving DecidableEq

/-- The anomaly record built for reading `r` over data set `data`. -/
def anomalyOf (data : List Reading) (r : Reading) : Anomaly :=
  let ze := zscore r.carbonEmissions (emissionsMean data) (emissionsVar data)
  let zE := zscore r.energyConsumption (energyMean data) (energyVar data)
  { id := r.id
    timestamp := r.timestamp
    buildingId := r.buildingId
    deviceId := r.deviceId
    carbonEmissions := r.carbonEmissions
    energyConsumption := r.energyConsumption
    emissionsZScore := ze
    energyZScore := zE
    reason := if ze.absGtAbs zE then .unusualEmissions else .unusualEnergy }

/-- The flag condition of `detectAnomalies`:
`Math.abs(emissionsZScore) > threshold || Math.abs(energyZScore) > threshold`. -/
def anomalyCond (data : List Reading) (t : ℚ) (r : Reading) : Bool :=
  (zscore r.carbonEmissions (emissionsMean data) (emissionsVar data)).absGt t ||
  (zscore r.energyConsumption (energyMean data) (energyVar data)).absGt t

/-- `detectAnomalies(threshold)` from `CarbonDataAnalyzer.js` (the source
default for `threshold` is 2). -/
def detectAnomalies (data : List Reading) (t : ℚ) : List Anomaly :=
  if data.length < 5 then []
  else data.filterMap fun r =>
    if anomalyCond data t r then some (anomalyOf data r) else none

/-- Per-device accumulator of `calculateCarbonIntensity` (the device id
is the association-list key; `type` comes from the first reading seen for
the device). -/
structure DevAcc where
  type : String
  totalEmissions : ℚ
  totalEnergy : ℚ
  deriving DecidableEq

/-- Per-building accumulator of `calculateCarbonIntensity` (the building
id is the association-list key; `name` comes from the first reading seen
for the building; `devices` is keyed by device id, insertion-ordered). -/
structure BldAcc where
  name : String
  totalEmissions : ℚ
  totalEnergy : ℚ
  devices : List (String × DevAcc)
  deriving DecidableEq

/-- The fresh device entry created for the first reading of a device. -/
def dIni (r : Reading) : DevAcc := ⟨r.metaDeviceType.getD "unknown", 0, 0⟩

/-- `device.totalEmissions += …; device.totalEnergy += …`. -/
def dUpd (r : Reading) (d : DevAcc) : DevAcc :=
  ⟨d.type, d.totalEmissions + r.carbonEmissions, d.totalEnergy + r.energyConsumption⟩

/-- Adding reading `r` to a building's device map. -/
def addDevice (r : Reading) (devs : List (String × DevAcc)) : List (String × DevAcc) :=
  upsertKey r.deviceId (dIni r) (dUpd r) devs

/-- The fresh building entry created for the first reading of a building. -/
def bIni (r : Reading) : BldAcc := ⟨r.metaBuildingName.getD r.buildingId, 0, 0, []⟩

/-- `building.totalEmissions += …; building.totalEnergy += …;` plus the
device-level accumulation. -/
def bUpd (r : Reading) (b : BldAcc) : BldAcc :=
  ⟨b.name, b.totalEmissions + r.carbonEmissions,
   b.totalEnergy + r.energyConsumption, addDevice r b.devices⟩

/-- Adding reading `r` to the building map. -/
def addBuilding (r : Reading) (blds : List (String × BldAcc)) : List (String × BldAcc) :=
  upsertKey r.buildingId (bIni r) (bUpd r) blds

/-- The per-building accumulators of `calculateCarbonIntensity`, in
first-encounter order. -/
def intensityGroups (data : List Reading) : List (String × BldAcc) :=
  data.foldl (fun acc r => addBuilding r acc) []

/-- A device row of the `calculateCarbonIntensity` output. -/
structure DeviceIntensity where
  id : String
  type : String
  totalEmissions : ℚ
  totalEnergy : ℚ
  intensity : ℚ
  deriving DecidableEq

/-- A building row of the `calculateCarbonIntensity` output. -/
structure BuildingIntensity where
  id : String
  name : String
  totalEmissions : ℚ
  totalEnergy : ℚ
  intensity : ℚ
  devices : List DeviceIntensity
  deriving DecidableEq

/-- The result of `calculateCarbonIntensity`. -/
structure IntensityResult where
  buildings : List BuildingIntensity
  average : ℚ
  deriving DecidableEq

/-- The guarded ratio `totalEnergy > 0 ? totalEmissions / totalEnergy : 0`. -/
def intensityRatio (e en : ℚ) : ℚ := if en > 0 then e / en else 0

/-- Finalize a device row: guarded intensity, rounded output fields. -/
def finishDevice (kd : String × DevAcc) : DeviceIntensity :=
  { id := kd.1
    type := kd.2.type
    totalEmissions := round2 kd.2.totalEmissions
    totalEnergy := round2 kd.2.totalEnergy
    intensity := round4 (intensityRatio kd.2.totalEmissions kd.2.totalEnergy) }

/-- Finalize a building row: guarded intensity, rounded output fields,
devices sorted descending by (rounded) intensity. -/
def finishBuilding (kb : String × BldAcc) : BuildingIntensity :=
  { id := kb.1
    name := kb.2.name
    totalEmissions := round2 kb.2.totalEmissions
    totalEnergy := round2 kb.2.totalEnergy
    intensity := round4 (intensityRatio kb.2.totalEmissions kb.2.totalEnergy)
    devices := List.insertionSort (fun a b => b.intensity ≤ a.intensity)
      (kb.2.devices.map finishDevice) }

/-- `calculateCarbonIntensity()` from `CarbonDataAnalyzer.js`.  The
global average divides the sums of the unrounded building totals (which
the source accumulates while finalizing buildings). -/
def calculateCarbonIntensity (data : List Reading) : IntensityResult :=
  if data = [] then ⟨[], 0⟩
  else
    { buildings := List.insertionSort (fun a b => b.intensity ≤ a.intensity)
        ((intensityGroups data).map finishBuilding)
      average := round4 (intensityRatio
        ((intensityGroups data).map (fun kb => kb.2.totalEmissions)).sum
        ((intensityGroups data).map (fun kb => kb.2.totalEnergy)).sum) }

/-- A grouping key of `identifyTrends`.  The source builds a key string
per interval (`"YYYY-MM-DD HH:00"`, `"YYYY-MM-DD"`, `"Week of
YYYY-MM-DD"`): two timestamps receive the same string iff they agree on
the calendar components recorded here, so keys are modelled by those
components (day numbers instead of rendered dates).  For any interval
other than the three recognized ones the source leaves `key` undefined,
so every reading lands in the single bucket `undefinedKey`. -/
inductive TKey where
  | hourKey (day : ℤ) (hour : ℕ) : TKey
  | dayKey (day : ℤ) : TKey
  | weekKey (day : ℤ) : TKey
  | undefinedKey : TKey
  deriving DecidableEq

/-- The grouping key of a timestamp for an interval; for `"week"` the key
is the Sunday-aligned start of the week
(`date.getDate() - date.getDay()`). -/
def bucketKey (interval : String) (t : Ts) : TKey :=
  if interval = "hour" then .hourKey t.day t.hour
  else if interval = "day" then .dayKey t.day
  else if interval = "week" then .weekKey (t.day - dayOfWeek t.day)
  else .undefinedKey

/-- Per-bucket accumulator of `identifyTrends`. -/
structure TrendAcc where
  totalEmissions : ℚ
  totalEnergy : ℚ
  count : ℕ
  deriving DecidableEq

/-- `[...data].sort((a, b) => new Date(a.timestamp) - new Date(b.timestamp))`
(JavaScript `Array.sort` is stable, as is `insertionSort`). -/
def sortByTimestamp (data : List Reading) : List Reading :=
  List.insertionSort (fun a b => a.timestamp.val ≤ b.timestamp.val) data

/-- The interval buckets of `identifyTrends`, in first-encounter order of
the timestamp-sorted data. -/
def trendGroups (interval : String) (data : List Reading) : List (TKey × TrendAcc) :=
  (sortByTimestamp data).foldl
    (fun acc r =>
      upsertKey (bucketKey interval r.timestamp) ⟨0, 0, 0⟩
        (fun g => ⟨g.totalEmissions + r.carbonEmissions,
                   g.totalEnergy + r.energyConsumption, g.count + 1⟩)
        acc)
    []

/-- A bucket row of `identifyTrends` before the regression columns
(`predicted`, `deviation`) are attached. -/
structure TrendBase where
  interval : TKey
  totalEmissions : ℚ
  totalEnergy : ℚ
  averageEmissions : ℚ
  averageEnergy : ℚ
  count : ℕ
  deriving DecidableEq

/-- The bucket rows with rounded totals and averages. -/
def trendBases (interval : String) (data : List Reading) : List TrendBase :=
  (trendGroups interval data).map fun kg =>
    { interval := kg.1
      totalEmissions := round2 kg.2.totalEmissions
      totalEnergy := round2 kg.2.totalEnergy
      averageEmissions := round2 (kg.2.totalEmissions / kg.2.count)
      averageEnergy := round2 (kg.2.totalEnergy / kg.2.count)
      count := kg.2.count }

/-- The regression inputs `yValues`: the (rounded) bucket averages in
bucket order. -/
def trendYs (interval : String) (data : List Reading) : List ℚ :=
  (trendBases interval data).map TrendBase.averageEmissions

/-- `xMean`: mean of the x-values `0, 1, …, n-1`. -/
def xMean (n : ℕ) : ℚ := (∑ i in Finset.range n, (i : ℚ)) / n

/-- `yMean`: mean of the y-values. -/
def yMean (ys : List ℚ) : ℚ := ys.sum / ys.length

/-- The regression numerator `Σ (xᵢ - x̄)(yᵢ - ȳ)`. -/
def regNumer (ys : List ℚ) : ℚ :=
  ∑ i in Finset.range ys.length, ((i : ℚ) - xMean ys.length) * (ys.getD i 0 - yMean ys)

/-- The regression denominator `Σ (xᵢ - x̄)²`. -/
def regDenom (ys : List ℚ) : ℚ :=
  ∑ i in Finset.range ys.length, ((i : ℚ) - xMean ys.length) ^ 2

/-- `slope = denominator !== 0 ? numerator / denominator : 0`. -/
def regSlope (ys : List ℚ) : ℚ :=
  if regDenom ys ≠ 0 then regNumer ys / regDenom ys else 0

/-- `yIntercept = yMean - slope * xMean`. -/
def regIntercept (ys : List ℚ) : ℚ := yMean ys - regSlope ys * xMean ys.length

/-- The regression prediction at bucket index `i`. -/
def predictedAt (ys : List ℚ) (i : ℕ) : ℚ := regSlope ys * i + regIntercept ys

/-- `SS_residual`. -/
def ssResidual (ys : List ℚ) : ℚ :=
  ∑ i in Finset.range ys.length, (ys.getD i 0 - predictedAt ys i) ^ 2

/-- `SS_total`. -/
def ssTotal (ys : List ℚ) : ℚ :=
  ∑ i in Finset.range ys.length, (ys.getD i 0 - yMean ys) ^ 2

/-- `rSquared = ssTotal !== 0 ? 1 - ssResidual / ssTotal : 0`. -/
def rSquared (ys : List ℚ) : ℚ :=
  if ssTotal ys ≠ 0 then 1 - ssResidual ys / ssTotal ys else 0

/-- `slope > 0 ? 'increasing' : slope < 0 ? 'decreasing' : 'stable'`. -/
def trendDirection (slope : ℚ) : String :=
  if slope > 0 then "increasing" else if slope < 0 then "decreasing" else "stable"

/-- `rSquared > 0.7 ? 'strong' : rSquared > 0.3 ? 'moderate' : 'weak'`. -/
def trendStrength (r2 : ℚ) : String :=
  if r2 > 7/10 then "strong" else if r2 > 3/10 then "moderate" else "weak"

/-- A bucket row of `identifyTrends` with the regression columns. -/
structure TrendPoint where
  interval : TKey
  totalEmissions : ℚ
  totalEnergy : ℚ
  averageEmissions : ℚ
  averageEnergy : ℚ
  count : ℕ
  predicted : ℚ
  deviation : ℚ
  deriving DecidableEq

/-- The `analysis` object of `identifyTrends`. -/
structure TrendAnalysis where
  slope : ℚ
  yIntercept : ℚ
  rSquared : ℚ
  direction : String
  strength : String
  interpretation : String
  deriving DecidableEq

/-- The `analysis` object built in the main branch of `identifyTrends`. -/
def trendAnalysisOf (interval : String) (data : List Reading) : TrendAnalysis :=
  { slope := round4 (regSlope (trendYs interval data))
    yIntercept := round4 (regIntercept (trendYs interval data))
    rSquared := round4 (rSquared (trendYs interval data))
    direction := trendDirection (regSlope (trendYs interval data))
    strength := trendStrength (rSquared (trendYs interval data))
    interpretation :=
      "Carbon emissions show a " ++ trendStrength (rSquared (trendYs interval data)) ++
      " " ++ trendDirection (regSlope (trendYs interval data)) ++
      " trend over the " ++ interval ++ "s analyzed." }

/-- The result of `identifyTrends`.  The empty-data early return is the
object `{trends: [], hasSignificantTrend: false}` without an `analysis`
key; the absent key is modelled by `none`. -/
structure TrendResult where
  trends : List TrendPoint
  analysis : Option TrendAnalysis
  hasSignificantTrend : Bool
  deriving DecidableEq

/-- `identifyTrends(interval)` from `CarbonDataAnalyzer.js` (the source
default for `interval` is `'day'`). -/
def identifyTrends (interval : String) (data : List Reading) : TrendResult :=
  if data = [] then ⟨[], none, false⟩
  else
    { trends := (trendBases interval data).enum.map fun p =>
        { interval := p.2.interval
          totalEmissions := p.2.totalEmissions
          totalEnergy := p.2.totalEnergy
          averageEmissions := p.2.averageEmissions
          averageEnergy := p.2.averageEnergy
          count := p.2.count
          predicted := round2 (predictedAt (trendYs interval data) p.1)
          deviation := round2 (p.2.averageEmissions - predictedAt (trendYs interval data) p.1) }
      analysis := some (trendAnalysisOf interval data)
      hasSignificantTrend :=
        decide (1/10 < |regSlope (trendYs interval data)|) &&
        decide (3/10 < rSquared (trendYs interval data)) }

/-- A recommendation of `CarbonDataAnalyzer.generateRecommendations`.
`target` is absent (`none`) on general and trend recommendations. -/
structure Recommendation where
  type : String
  priority : String
  target : Option String := none
  text : String
  deriving DecidableEq

/-- Fallback analysis value for `Option.getD`; unreachable, since the
code reads `trends.analysis` only when `hasSignificantTrend` is true,
which only the main (non-empty) branch of `identifyTrends` can set. -/
def defaultAnalysis : TrendAnalysis := ⟨0, 0, 0, "", "", ""⟩

/-- Intensity rule of `generateRecommendations`: flag the
highest-intensity building when its intensity exceeds 1.5× the global
average, plus that building's worst device when it exceeds 1.3× the
building's own intensity. -/
def intensityRecs (data : List Reading) : List Recommendation :=
  match (calculateCarbonIntensity data).buildings with
  | [] => []
  | highest :: _ =>
    if highest.intensity > (calculateCarbonIntensity data).average * (3/2) then
      { type := "efficiency", priority := "high", target := some highest.name,
        text := highest.name ++ " has a carbon intensity " ++
          decStr 1 (highest.intensity / (calculateCarbonIntensity data).average) ++
          "x higher than average. Consider energy efficiency improvements." } ::
      (match highest.devices with
       | [] => []
       | worst :: _ =>
         if worst.intensity > highest.intensity * (13/10) then
           [{ type := "device", priority := "high",
              target := some (worst.type ++ " in " ++ highest.name),
              text := "The " ++ worst.type ++ " in " ++ highest.name ++
                " has particularly high carbon intensity. Consider upgrading or optimizing this system." }]
         else [])
    else []

/-- Trend rule of `generateRecommendations` (day-level analysis). -/
def trendRecs (data : List Reading) : List Recommendation :=
  if (identifyTrends "day" data).hasSignificantTrend then
    if ((identifyTrends "day" data).analysis.getD defaultAnalysis).slope > 0 then
      [{ type := "trend", priority := "high",
         text := "Carbon emissions are " ++
           ((identifyTrends "day" data).analysis.getD defaultAnalysis).strength ++
           " increasing over time. Review recent operational changes and consider implementing additional reduction measures." }]
    else
      [{ type := "trend", priority := "low",
         text := "Carbon emissions are " ++
           ((identifyTrends "day" data).analysis.getD defaultAnalysis).strength ++
           " decreasing over time. Current reduction measures appear to be effective." }]
  else []

/-- Anomaly-by-building grouping (`buildingAnomalies[buildingId].push`),
over `detectAnomalies()` at the default threshold 2. -/
def anomalyGroups (data : List Reading) : List (String × List Anomaly) :=
  (detectAnomalies data 2).foldl
    (fun acc a => upsertKey a.buildingId [] (fun l => l ++ [a]) acc) []

/-- Anomaly rule of `generateRecommendations`: flag buildings with more
than 2 anomalies.  The source reads
`buildingAnomaliesList[0].metadata?.buildingName || buildingId`; anomaly
records carry no `metadata` property, so the building-id fallback is
always taken. -/
def anomalyRecs (data : List Reading) : List Recommendation :=
  (anomalyGroups data).filterMap fun kv =>
    if kv.2.length > 2 then
      some { type := "anomaly", priority := "medium", target := some kv.1,
             text := kv.1 ++ " shows " ++ toString kv.2.length ++
               " unusual readings. Consider investigating for potential equipment malfunctions or operational issues." }
    else none

/-- The rule-based recommendations, in the source's rule order. -/
def ruleRecs (data : List Reading) : List Recommendation :=
  intensityRecs data ++ trendRecs data ++ anomalyRecs data

/-- `generateRecommendations()` from `CarbonDataAnalyzer.js`. -/
def generateRecommendations (data : List Reading) : List Recommendation :=
  if data.length < 10 then
    [{ type := "general", priority := "medium",
       text := "Collect more data to enable comprehensive analysis and more specific recommendations." }]
  else
    if (ruleRecs data).length < 2 then
      ruleRecs data ++
      [{ type := "general", priority := "medium",
         text := "Consider implementing a regular energy audit program to identify further efficiency opportunities." },
       { type := "general", priority := "medium",
         text := "Develop a carbon reduction roadmap with specific targets and timelines for each building." }]
    else ruleRecs data

/-- The label of a forecast point.  For `"day"` the source parses the
last bucket's `"YYYY-MM-DD"` key and advances it by `i + 1` days, giving
a date label modelled by its day number.  For `"week"` the source feeds
the label `"Week of YYYY-MM-DD"` back into `new Date(...)`, which yields
an invalid date, so every week label renders as `"Week of NaN-NaN-NaN"`
(`weekInvalid`).  Any other interval produces the generic
`Future {interval} {n}` label. -/
inductive FLabel where
  | dayLabel (day : ℤ) : FLabel
  | weekInvalid : FLabel
  | future (interval : String) (n : ℕ) : FLabel
  deriving DecidableEq

/-- One forecast point `{interval, forecast}`. -/
structure FPoint where
  interval : FLabel
  forecast : ℚ
  deriving DecidableEq

/-- The day number of a trend key.  In the `"day"` forecast branch the
last key is always a `dayKey`; the other branches are unreachable there. -/
def TKey.dayOf : TKey → ℤ
  | .hourKey d _ => d
  | .dayKey d => d
  | .weekKey d => d
  | .undefinedKey => 0

/-- The interval key of the last trend bucket
(`trends.trends[trends.trends.length - 1].interval`; only read when at
least 10 readings exist, hence some bucket exists and the default is
unreachable). -/
def lastKey (interval : String) (data : List Reading) : TKey :=
  ((trendBases interval data).map TrendBase.interval).getLastD .undefinedKey

/-- The forecast label for loop index `i` (0-based). -/
def fLabel (interval : String) (lastDay : ℤ) (i : ℕ) : FLabel :=
  if interval = "day" then .dayLabel (lastDay + i + 1)
  else if interval = "week" then .weekInvalid
  else .future interval (i + 1)

/-- The forecast loop: per period the running value is updated by
`currentForecast = max(0, currentForecast + slope)` and its 2-decimal
rounding is pushed. `i` is the loop index, the last argument the number
of remaining periods. -/
def forecastLoop (interval : String) (lastDay : ℤ) (slope : ℚ) :
    ℚ → ℕ → ℕ → List FPoint
  | _, _, 0 => []
  | cur, i, n + 1 =>
    ⟨fLabel interval lastDay i, round2 (max 0 (cur + slope))⟩ ::
      forecastLoop interval lastDay slope (max 0 (cur + slope)) (i + 1) n

/-- The confidence classification of `forecast` (based on the rounded
`rSquared` of the trend analysis and the reading count). -/
def forecastConfidence (r2 : ℚ) (n : ℕ) : String :=
  if r2 > 7/10 ∧ n > 30 then "high"
  else if r2 > 4/10 ∧ n > 20 then "medium"
  else "low"

/-- Result shape of `forecast`.  The early insufficient-data return is an
object literal without `historical` and `slope` keys; the absent keys are
modelled by `none`. -/
structure ForecastResult where
  historical : Option (List TrendPoint)
  forecast : List FPoint
  confidence : String
  slope : Option ℚ
  message : String
  deriving DecidableEq

/-- `forecast(periods, interval)` from `CarbonDataAnalyzer.js` (source
defaults: `periods = 7`, `interval = 'day'`).  In the main branch
`data ≠ []`, so `identifyTrends` returns `analysis =
some (trendAnalysisOf interval data)`; the source reads
`trends.analysis.slope` and `trends.analysis.rSquared`, which are
`(trendAnalysisOf interval data).slope`/`.rSquared` here. -/
def forecast (data : List Reading) (periods : ℕ) (interval : String) : ForecastResult :=
  if data.length < 10 then
    { historical := none, forecast := [], confidence := "low", slope := none,
      message := "Insufficient historical data for accurate forecasting" }
  else
    { historical := some (identifyTrends interval data).trends
      forecast := forecastLoop interval (lastKey interval data).dayOf
        (trendAnalysisOf interval data).slope
        (((identifyTrends interval data).trends.map TrendPoint.averageEmissions).getLastD 0)
        0 periods
      confidence := forecastConfidence (trendAnalysisOf interval data).rSquared data.length
      slope := some (trendAnalysisOf interval data).slope
      message := "This forecast has " ++
        forecastConfidence (trendAnalysisOf interval data).rSquared data.length ++
        " confidence based on " ++ toString data.length ++ " data points and an R² of " ++
        decStr 2 (trendAnalysisOf interval data).rSquared ++ "." }

end CarbonDataAnalyzer

/-- The recurrence stated by claim C4: `f 0 = start` and
`f (i+1) = max 0 (f i + slope)`. -/
def specForecastSeq (start slope : ℚ) : ℕ → ℚ
  | 0 => start
  | n + 1 => max 0 (specForecastSeq start slope n + slope)

/-- Update the element at index `i` (no-op when out of range); models an
indexed array assignment. -/
def modIdx {α : Type} : List α → ℕ → (α → α) → List α
  | [], _, _ => []
  | x :: xs, 0, f => f x :: xs
  | x :: xs, n + 1, f => x :: modIdx xs n f

/-- Civil (proleptic Gregorian) date `(year, month, day-of-month)` of a
day number (days since 1970-01-01); Howard Hinnant's `civil_from_days`. -/
def civilFromDays (z : ℤ) : ℤ × ℕ × ℕ :=
  let zs := z + 719468
  let era : ℤ := Int.fdiv zs 146097
  let doe : ℕ := (zs - era * 146097).toNat
  let yoe : ℕ := (doe - doe / 1460 + doe / 36524 - doe / 146096) / 365
  let doy : ℕ := doe - (365 * yoe + yoe / 4 - yoe / 100)
  let mp : ℕ := (5 * doy + 2) / 153
  let d : ℕ := doy - (153 * mp + 2) / 5 + 1
  let m : ℕ := if mp < 10 then mp + 3 else mp - 9
  (era * 400 + yoe + (if m ≤ 2 then 1 else 0), m, d)

/-- Day number of a civil date (Hinnant's `days_from_civil`).  Month 13
of year `y` lands in January of `y + 1`, matching the JavaScript
`new Date(year, month, 1)` overflow normalization that
`generateMonthlyReport` relies on for the end of the month. -/
def daysFromCivil (y : ℤ) (m : ℕ) (d : ℕ) : ℤ :=
  let ys : ℤ := y - (if m ≤ 2 then 1 else 0)
  let era : ℤ := Int.fdiv ys 400
  let yoe : ℕ := (ys - era * 400).toNat
  let mp : ℕ := if m > 2 then m - 3 else m + 9
  let doy : ℕ := (153 * mp + 2) / 5 + d - 1
  let doe : ℕ := yoe * 365 + yoe / 4 - yoe / 100 + doy
  era * 146097 + (doe : ℤ) - 719468

/-- `date.toISOString().split('T')[0]`: the `YYYY-MM-DD` rendering of a
day number. -/
def dateStr (day : ℤ) : String :=
  let c := civilFromDays day
  (if c.1 < 0 then "-" ++ natPad c.1.natAbs 4 else natPad c.1.toNat 4) ++ "-" ++
    natPad c.2.1 2 ++ "-" ++ natPad c.2.2 2

/-- The day-name lookup table of `ReportGenerator`. -/
def dayNames : List String :=
  ["Sunday", "Monday", "Tuesday", "Wednesday", "Thursday", "Friday", "Saturday"]

/-- `dayNames[i]` (the index is always a `getDay()` result in `0..6`). -/
def dayNameOf (i : ℕ) : String := dayNames.getD i ""

/-- Placeholder for the unreachable `data[0]` access on an empty list in
the weekly recommendation branch (guarded by `data.length ≥ 5`). -/
def dummyReading : Reading :=
  { id := "", timestamp := ⟨0, 0⟩, buildingId := "", deviceId := "",
    energyConsumption := 0, carbonEmissions := 0 }

/-- Concatenation of the rendered rows of a table block (claim side of
the CSV layout: one rendered row per element, in order). -/
def strRows {α : Type} (f : α → String) (l : List α) : String :=
  (l.map f).foldr (fun a b => a ++ b) ""

namespace ReportGenerator

/-- Per-device accumulator of `ReportGenerator.groupByBuilding`. -/
structure BDevGroup where
  type : String
  totalEmissions : ℚ
  totalEnergy : ℚ
  readingCount : ℕ
  deriving DecidableEq

/-- Per-building accumulator of `ReportGenerator.groupByBuilding`. -/
structure BGroupAcc where
  name : String
  totalEmissions : ℚ
  totalEnergy : ℚ
  readingCount : ℕ
  devices : List (String × BDevGroup)
  deriving DecidableEq

/-- The hardcoded building-name table (`B-101` … `B-105`). -/
def buildingNames (id : String) : Option String :=
  if id = "B-101" then some "City Hall"
  else if id = "B-102" then some "Community Center"
  else if id = "B-103" then some "Public Library"
  else if id = "B-104" then some "Police Station"
  else if id = "B-105" then some "Fire Station"
  else none

/-- Fresh device entry. -/
def rIniDev (r : Reading) : BDevGroup := ⟨r.metaDeviceType.getD "unknown", 0, 0, 0⟩

/-- Device accumulation step. -/
def rUpdDev (r : Reading) (d : BDevGroup) : BDevGroup :=
  ⟨d.type, d.totalEmissions + r.carbonEmissions, d.totalEnergy + r.energyConsumption,
   d.readingCount + 1⟩

/-- Fresh building entry; the name resolves
`metadata?.buildingName || buildingNames[id] || id`. -/
def rIniBld (r : Reading) : BGroupAcc :=
  ⟨(r.metaBuildingName.orElse fun _ => buildingNames r.buildingId).getD r.buildingId,
   0, 0, 0, []⟩

/-- Building accumulation step. -/
def rUpdBld (r : Reading) (b : BGroupAcc) : BGroupAcc :=
  ⟨b.name, b.totalEmissions + r.carbonEmissions, b.totalEnergy + r.energyConsumption,
   b.readingCount + 1, upsertKey r.deviceId (rIniDev r) (rUpdDev r) b.devices⟩

/-- A finalized device row. -/
structure DeviceGroup where
  id : String
  type : String
  totalEmissions : ℚ
  totalEnergy : ℚ
  readingCount : ℕ
  deriving DecidableEq

/-- A finalized building row. -/
structure BuildingGroup where
  id : String
  name : String
  totalEmissions : ℚ
  totalEnergy : ℚ
  readingCount : ℕ
  devices : List DeviceGroup
  deriving DecidableEq

/-- Finalize a device row (rounded totals). -/
def finishDeviceGroup (kd : String × BDevGroup) : DeviceGroup :=
  ⟨kd.1, kd.2.type, round2 kd.2.totalEmissions, round2 kd.2.totalEnergy, kd.2.readingCount⟩

/-- Finalize a building row: rounded totals, devices sorted descending by
total emissions. -/
def finishBuildingGroup (kb : String × BGroupAcc) : BuildingGroup :=
  ⟨kb.1, kb.2.name, round2 kb.2.totalEmissions, round2 kb.2.totalEnergy, kb.2.readingCount,
   List.insertionSort (fun a b => b.totalEmissions ≤ a.totalEmissions)
     (kb.2.devices.map finishDeviceGroup)⟩

/-- `groupByBuilding(data)` from the report generator: group by building
id (insertion order), finalize, sort descending by total emissions. -/
def groupByBuilding (data : List Reading) : List BuildingGroup :=
  List.insertionSort (fun a b => b.totalEmissions ≤ a.totalEmissions)
    ((data.foldl (fun acc r => upsertKey r.buildingId (rIniBld r) (rUpdBld r) acc) []).map
      finishBuildingGroup)

/-- An hourly aggregation row. -/
structure HourGroup where
  hour : ℕ
  totalEmissions : ℚ
  totalEnergy : ℚ
  readingCount : ℕ
  deriving DecidableEq

/-- `groupByHour(data)`: group by hour of day, round, sort ascending. -/
def groupByHour (data : List Reading) : List HourGroup :=
  List.insertionSort (fun a b => a.hour ≤ b.hour)
    ((data.foldl (fun acc r =>
        upsertKey r.timestamp.hour (⟨r.timestamp.hour, 0, 0, 0⟩ : HourGroup)
          (fun h => ⟨h.hour, h.totalEmissions + r.carbonEmissions,
                     h.totalEnergy + r.energyConsumption, h.readingCount + 1⟩) acc) []).map
      (fun kv => ⟨kv.2.hour, round2 kv.2.totalEmissions, round2 kv.2.totalEnergy,
                  kv.2.readingCount⟩))

/-- A daily aggregation row. -/
structure DayGroup where
  date : String
  dayOfWeek : ℕ
  dayName : String
  totalEmissions : ℚ
  totalEnergy : ℚ
  readingCount : ℕ
  deriving DecidableEq

/-- `Math.floor((date - startDate) / 86400000)` (timestamp values are in
hours). -/
def dayIndexOf (start : Ts) (t : Ts) : ℤ := Int.fdiv (t.val - start.val) 24

/-- `groupByDay(data, startDate, days)`: initialize one row per day, add
each reading to its day's row (ignoring out-of-range readings), round. -/
def groupByDay (data : List Reading) (start : Ts) (days : ℕ) : List DayGroup :=
  let ini := (List.range days).map fun i =>
    ({ date := dateStr (start.day + i), dayOfWeek := dayOfWeek (start.day + i),
       dayName := dayNameOf (dayOfWeek (start.day + i)),
       totalEmissions := 0, totalEnergy := 0, readingCount := 0 } : DayGroup)
  let filled := data.foldl (fun acc r =>
    let idx := dayIndexOf start r.timestamp
    if 0 ≤ idx ∧ idx < (days : ℤ) then
      modIdx acc idx.toNat (fun g =>
        { g with totalEmissions := g.totalEmissions + r.carbonEmissions,
                 totalEnergy := g.totalEnergy + r.energyConsumption,
                 readingCount := g.readingCount + 1 })
    else acc) ini
  filled.map fun g => { g with totalEmissions := round2 g.totalEmissions,
                               totalEnergy := round2 g.totalEnergy }

/-- `findPeakHour(hourlyData)`: `reduce` with the first row as initial
accumulator, replacing on strictly greater emissions. -/
def findPeakHour (hourly : List HourGroup) : Option (ℕ × ℚ) :=
  match hourly with
  | [] => none
  | h0 :: _ =>
    some (hourly.foldl (fun peak h =>
      if h.totalEmissions > peak.2 then (h.hour, h.totalEmissions) else peak)
      (h0.hour, h0.totalEmissions))

/-- `findPeakDay(dailyData)`. -/
def findPeakDay (daily : List DayGroup) : Option (String × ℚ) :=
  match daily with
  | [] => none
  | d0 :: _ =>
    some (daily.foldl (fun peak d =>
      if d.totalEmissions > peak.2 then (d.dayName, d.totalEmissions) else peak)
      (d0.dayName, d0.totalEmissions))

/-- A weekly trend row of the monthly report. -/
structure WeekGroup where
  week : ℕ
  startDate : Option String
  endDate : Option String
  totalEmissions : ℚ
  totalEnergy : ℚ
  readingCount : ℕ
  deriving DecidableEq

/-- `calculateWeeklyTrend(data, startDate)`: calendar weeks of the month
of `start` (Sunday-aligned index), weeks without a start date filtered
out. -/
def calculateWeeklyTrend (data : List Reading) (start : Ts) : List WeekGroup :=
  let startDow := dayOfWeek start.day
  let y := (civilFromDays start.day).1
  let m := (civilFromDays start.day).2.1
  let daysInMonth := (daysFromCivil y (m + 1) 1 - daysFromCivil y m 1).toNat
  let numWeeks := (daysInMonth + startDow + 6) / 7
  let weeks0 := (List.range numWeeks).map fun (i : ℕ) =>
    let weekStart : ℤ := 7 * (i : ℤ) - startDow + 1
    let weekEnd : ℤ := min (weekStart + 6) (daysInMonth : ℤ)
    if weekStart ≤ (daysInMonth : ℤ) then
      ({ week := i + 1,
         startDate := some (dateStr (daysFromCivil y m (max 1 weekStart).toNat)),
         endDate := some (dateStr (daysFromCivil y m weekEnd.toNat)),
         totalEmissions := 0, totalEnergy := 0, readingCount := 0 } : WeekGroup)
    else { week := i + 1, startDate := none, endDate := none,
           totalEmissions := 0, totalEnergy := 0, readingCount := 0 }
  let filled := data.foldl (fun acc r =>
    let dom := (civilFromDays r.timestamp.day).2.2
    let wi := (dom + startDow - 1) / 7
    if wi < acc.length then
      modIdx acc wi (fun w =>
        { w with totalEmissions := w.totalEmissions + r.carbonEmissions,
                 totalEnergy := w.totalEnergy + r.energyConsumption,
                 readingCount := w.readingCount + 1 })
    else acc) weeks0
  (filled.filter (fun w => w.startDate ≠ none)).map fun w =>
    { w with totalEmissions := round2 w.totalEmissions,
             totalEnergy := round2 w.totalEnergy }

/-- A recommendation of the report generator. -/
structure ReportRec where
  priority : String
  category : String
  building : Option String := none
  device : Option String := none
  text : String
  deriving DecidableEq

/-- `generateRecommendations(data, reportType)` from the report
generator.  Weekly timing analysis starts at `data[0].timestamp`
(unreachable `dummyReading` fallback: this branch requires
`data.length ≥ 5`). -/
def generateRecommendations (data : List Reading) (reportType : String) : List ReportRec :=
  if data.length < 5 then
    [{ priority := "low", category := "general",
       text := "Insufficient data to generate meaningful recommendations. Continue collecting data to improve insights." }]
  else
    let recs1 : List ReportRec := (groupByBuilding data).flatMap fun building =>
      (if building.totalEmissions > 100 then
        [{ priority := "high", category := "building", building := some building.name,
           text := building.name ++ " has unusually high emissions (" ++
             numStr building.totalEmissions ++
             " kg CO2). Consider an energy audit to identify inefficiencies." }]
       else []) ++
      building.devices.filterMap fun device =>
        if device.totalEmissions > building.totalEmissions * (4/10) then
          some { priority := "medium", category := "device",
                 building := some building.name, device := some device.type,
                 text := device.type ++ " in " ++ building.name ++
                   " accounts for over 40% of the building\x27s emissions. Consider upgrading or optimizing this system." }
        else none
    let recs2 : List ReportRec :=
      if reportType = "daily" then
        match findPeakHour (groupByHour data) with
        | some peak =>
          [{ priority := "medium", category := "timing",
             text := "Peak emissions occur at " ++ toString peak.1 ++
               ":00. Consider shifting energy-intensive operations to off-peak hours." }]
        | none => []
      else if reportType = "weekly" then
        match findPeakDay (groupByDay data (data.headD dummyReading).timestamp 7) with
        | some peak =>
          [{ priority := "medium", category := "timing",
             text := peak.1 ++ " shows the highest emissions. Review operations on this day to identify reduction opportunities." }]
        | none => []
      else []
    let recs : List ReportRec := recs1 ++ recs2
    if recs.length < 2 then
      recs ++
      [{ priority := "low", category := "general",
         text := "Consider implementing a regular energy monitoring program to track consumption patterns and identify inefficiencies." },
       { priority := "low", category := "general",
         text := "Educate staff about energy conservation practices to reduce overall carbon footprint." }]
    else recs

/-- The `summary` of a daily report. -/
structure DailySummary where
  totalEmissions : ℚ
  totalEnergy : ℚ
  readingCount : ℕ
  peakHour : String
  peakEmissions : ℚ
  deriving DecidableEq

/-- A daily report. -/
structure DailyReport where
  date : String
  summary : DailySummary
  buildings : List BuildingGroup
  hourly : List HourGroup
  recommendations : List ReportRec
  deriving DecidableEq

/-- The half-open daily window filter
`itemDate >= reportDate && itemDate < nextDay` (with `reportDate` the
midnight of `date`). -/
def dailyWindow (date : Ts) (r : Reading) : Bool :=
  decide (Ts.val ⟨date.day, 0⟩ ≤ r.timestamp.val) &&
  decide (r.timestamp.val < Ts.val ⟨date.day + 1, 0⟩)

/-- `generateDailyReport(date)` from the report generator. -/
def generateDailyReport (data : List Reading) (date : Ts) : DailyReport :=
  let dailyData := data.filter (dailyWindow date)
  let hourlyData := groupByHour dailyData
  let peak := findPeakHour hourlyData
  { date := dateStr date.day
    summary :=
      { totalEmissions := round2 ((dailyData.map Reading.carbonEmissions).sum)
        totalEnergy := round2 ((dailyData.map Reading.energyConsumption).sum)
        readingCount := dailyData.length
        peakHour := match peak with | some p => toString p.1 ++ ":00" | none => "N/A"
        peakEmissions := match peak with | some p => round2 p.2 | none => 0 }
    buildings := groupByBuilding dailyData
    hourly := hourlyData
    recommendations := generateRecommendations dailyData "daily" }

/-- The `summary` of a weekly report. -/
structure WeeklySummary where
  totalEmissions : ℚ
  totalEnergy : ℚ
  readingCount : ℕ
  peakDay : String
  peakEmissions : ℚ
  deriving DecidableEq

/-- A weekly report. -/
structure WeeklyReport where
  startDate : String
  endDate : String
  summary : WeeklySummary
  daily : List DayGroup
  buildings : List BuildingGroup
  recommendations : List ReportRec
  deriving DecidableEq

/-- `generateWeeklyReport(date)`: the week runs from the Sunday-aligned
start of `date`'s week; the displayed end date (`endDate - 1ms`) falls on
day `start + 6`. -/
def generateWeeklyReport (data : List Reading) (date : Ts) : WeeklyReport :=
  let startDay := date.day - dayOfWeek date.day
  let weeklyData := data.filter fun r =>
    decide (Ts.val ⟨startDay, 0⟩ ≤ r.timestamp.val) &&
    decide (r.timestamp.val < Ts.val ⟨startDay + 7, 0⟩)
  let dailyData := groupByDay weeklyData ⟨startDay, 0⟩ 7
  let peak := findPeakDay dailyData
  { startDate := dateStr startDay
    endDate := dateStr (startDay + 6)
    summary :=
      { totalEmissions := round2 ((weeklyData.map Reading.carbonEmissions).sum)
        totalEnergy := round2 ((weeklyData.map Reading.energyConsumption).sum)
        readingCount := weeklyData.length
        peakDay := match peak with | some p => p.1 | none => "N/A"
        peakEmissions := match peak with | some p => round2 p.2 | none => 0 }
    daily := dailyData
    buildings := groupByBuilding weeklyData
    recommendations := generateRecommendations weeklyData "weekly" }

/-- The `summary` of a monthly report. -/
structure MonthlySummary where
  totalEmissions : ℚ
  totalEnergy : ℚ
  readingCount : ℕ
  dailyAverage : ℚ
  deriving DecidableEq

/-- A monthly report. -/
structure MonthlyReport where
  year : ℤ
  month : ℕ
  summary : MonthlySummary
  daily : List DayGroup
  buildings : List BuildingGroup
  weeklyTrend : List WeekGroup
  recommendations : List ReportRec
  deriving DecidableEq

/-- `generateMonthlyReport(year, month)` (month is 1-based; the end of
the window is the first day of the following month). -/
def generateMonthlyReport (data : List Reading) (year : ℤ) (month : ℕ) : MonthlyReport :=
  let startDay := daysFromCivil year month 1
  let endDay := daysFromCivil year (month + 1) 1
  let monthlyData := data.filter fun r =>
    decide (Ts.val ⟨startDay, 0⟩ ≤ r.timestamp.val) &&
    decide (r.timestamp.val < Ts.val ⟨endDay, 0⟩)
  let daysInMonth := (endDay - startDay).toNat
  { year := year
    month := month
    summary :=
      { totalEmissions := round2 ((monthlyData.map Reading.carbonEmissions).sum)
        totalEnergy := round2 ((monthlyData.map Reading.energyConsumption).sum)
        readingCount := monthlyData.length
        dailyAverage := round2 ((monthlyData.map Reading.carbonEmissions).sum / daysInMonth) }
    daily := groupByDay monthlyData ⟨startDay, 0⟩ daysInMonth
    buildings := groupByBuilding monthlyData
    weeklyTrend := calculateWeeklyTrend monthlyData ⟨startDay, 0⟩
    recommendations := generateRecommendations monthlyData "monthly" }

/-- A report object passed to the exporters; the three builders produce
the three shapes, distinguished by their `reportType` field in the
source. -/
inductive Report where
  | daily (r : DailyReport) : Report
  | weekly (r : WeeklyReport) : Report
  | monthly (r : MonthlyReport) : Report
  deriving DecidableEq

/-- One CSV row of the `BUILDINGS` block. -/
def csvBuildingRow (b : BuildingGroup) : String :=
  b.name ++ "," ++ numStr b.totalEmissions ++ "," ++ numStr b.totalEnergy ++ "," ++
    toString b.readingCount ++ "\n"

/-- One CSV row of the `HOURLY DATA` block. -/
def csvHourRow (h : HourGroup) : String :=
  toString h.hour ++ ":00," ++ numStr h.totalEmissions ++ "," ++ numStr h.totalEnergy ++
    "," ++ toString h.readingCount ++ "\n"

/-- One CSV row of the `DAILY DATA` block. -/
def csvDayRow (d : DayGroup) : String :=
  d.date ++ "," ++ d.dayName ++ "," ++ numStr d.totalEmissions ++ "," ++
    numStr d.totalEnergy ++ "," ++ toString d.readingCount ++ "\n"

/-- One CSV row of the `RECOMMENDATIONS` block; the text field is wrapped
in double quotes. -/
def csvRecRow (rc : ReportRec) : String :=
  rc.priority ++ "," ++ rc.category ++ ",\"" ++ rc.text ++ "\"\n"

/-- The `SUMMARY` block body of a daily report (the peak lines are
guarded by the truthiness of `peakHour`, which for built reports is
always a non-empty string). -/
def csvDailySummary (s : DailySummary) : String :=
  "Total Emissions (kg CO2)," ++ numStr s.totalEmissions ++ "\n" ++
  "Total Energy (kWh)," ++ numStr s.totalEnergy ++ "\n" ++
  "Reading Count," ++ toString s.readingCount ++ "\n" ++
  (if s.peakHour = "" then "" else
    "Peak Hour," ++ s.peakHour ++ "\n" ++
    "Peak Emissions (kg CO2)," ++ numStr s.peakEmissions ++ "\n")

/-- The `SUMMARY` block body of a weekly report. -/
def csvWeeklySummary (s : WeeklySummary) : String :=
  "Total Emissions (kg CO2)," ++ numStr s.totalEmissions ++ "\n" ++
  "Total Energy (kWh)," ++ numStr s.totalEnergy ++ "\n" ++
  "Reading Count," ++ toString s.readingCount ++ "\n" ++
  (if s.peakDay = "" then "" else
    "Peak Day," ++ s.peakDay ++ "\n" ++
    "Peak Emissions (kg CO2)," ++ numStr s.peakEmissions ++ "\n")

/-- The `SUMMARY` block body of a monthly report. -/
def csvMonthlySummary (s : MonthlySummary) : String :=
  "Total Emissions (kg CO2)," ++ numStr s.totalEmissions ++ "\n" ++
  "Total Energy (kWh)," ++ numStr s.totalEnergy ++ "\n" ++
  "Reading Count," ++ toString s.readingCount ++ "\n" ++
  "Daily Average (kg CO2)," ++ numStr s.dailyAverage ++ "\n"

/-- `exportReportAsCsv(report)`: sequential `csv += …` construction, with
the row loops as folds. -/
def exportReportAsCsv : Report → String
  | .daily r =>
    "Report Type,daily\n" ++
    ("Date," ++ r.date ++ "\n") ++
    "\n" ++
    "SUMMARY\n" ++ csvDailySummary r.summary ++
    "\n" ++
    "BUILDINGS\n" ++
    "Building,Total Emissions (kg CO2),Total Energy (kWh),Reading Count\n" ++
    r.buildings.foldl (fun acc b => acc ++ csvBuildingRow b) "" ++
    "\n" ++
    "HOURLY DATA\n" ++
    "Hour,Total Emissions (kg CO2),Total Energy (kWh),Reading Count\n" ++
    r.hourly.foldl (fun acc h => acc ++ csvHourRow h) "" ++
    "\n" ++
    "RECOMMENDATIONS\n" ++
    "Priority,Category,Recommendation\n" ++
    r.recommendations.foldl (fun acc rc => acc ++ csvRecRow rc) ""
  | .weekly r =>
    "Report Type,weekly\n" ++
    ("Start Date," ++ r.startDate ++ "\n") ++
    ("End Date," ++ r.endDate ++ "\n") ++
    "\n" ++
    "SUMMARY\n" ++ csvWeeklySummary r.summary ++
    "\n" ++
    "BUILDINGS\n" ++
    "Building,Total Emissions (kg CO2),Total Energy (kWh),Reading Count\n" ++
    r.buildings.foldl (fun acc b => acc ++ csvBuildingRow b) "" ++
    "\n" ++
    "DAILY DATA\n" ++
    "Date,Day,Total Emissions (kg CO2),Total Energy (kWh),Reading Count\n" ++
    r.daily.foldl (fun acc d => acc ++ csvDayRow d) "" ++
    "\n" ++
    "RECOMMENDATIONS\n" ++
    "Priority,Category,Recommendation\n" ++
    r.recommendations.foldl (fun acc rc => acc ++ csvRecRow rc) ""
  | .monthly r =>
    "Report Type,monthly\n" ++
    ("Year," ++ toString r.year ++ "\n") ++
    ("Month," ++ toString r.month ++ "\n") ++
    "\n" ++
    "SUMMARY\n" ++ csvMonthlySummary r.summary ++
    "\n" ++
    "BUILDINGS\n" ++
    "Building,Total Emissions (kg CO2),Total Energy (kWh),Reading Count\n" ++
    r.buildings.foldl (fun acc b => acc ++ csvBuildingRow b) "" ++
    "\n" ++
    "DAILY DATA\n" ++
    "Date,Day,Total Emissions (kg CO2),Total Energy (kWh),Reading Count\n" ++
    r.daily.foldl (fun acc d => acc ++ csvDayRow d) "" ++
    "\n" ++
    "RECOMMENDATIONS\n" ++
    "Priority,Category,Recommendation\n" ++
    r.recommendations.foldl (fun acc rc => acc ++ csvRecRow rc) ""

end ReportGenerator

section ExampleData

open CarbonDataAnalyzer

/-- A reading with the given emissions and energy values (fixed ids and
timestamp; the other fields do not matter for the anomaly claims). -/
def mkR (n : String) (em en : ℚ) : Reading :=
  { id := n, timestamp := ⟨0, 0⟩, buildingId := "B-1", deviceId := "D-1",
    energyConsumption := en, carbonEmissions := em }

/-- The spec's example data set for C1: emissions
`[10,10,10,10,10,10,10,10,10,100]` (energy alternating 1 and 2, so the
energy metric has nonzero variance but flags nothing at threshold 2). -/
def exC1 : List Reading :=
  [mkR "r0" 10 1, mkR "r1" 10 2, mkR "r2" 10 1, mkR "r3" 10 2, mkR "r4" 10 1,
   mkR "r5" 10 2, mkR "r6" 10 1, mkR "r7" 10 2, mkR "r8" 10 1, mkR "r9" 100 2]

/-- Data set for C3: all emissions equal (zero variance), one energy
outlier.  At threshold 1 the last reading is flagged through the energy
metric. -/
def exC3 : List Reading :=
  [mkR "a0" 7 0, mkR "a1" 7 0, mkR "a2" 7 0, mkR "a3" 7 0, mkR "a4" 7 10]

/-- A reading at day `d`, hour `h` with the given emissions (fixed
building/device; energy 1). -/
def mkT (n : String) (d : ℤ) (h : ℕ) (em : ℚ) : Reading :=
  { id := n, timestamp := ⟨d, h⟩, buildingId := "B-1", deviceId := "D-1",
    energyConsumption := 1, carbonEmissions := em }

/-- Data set for the C2 witness: three days with constant daily average
emissions 10. -/
def exC2 : List Reading :=
  [mkT "t0" 0 1 10, mkT "t1" 0 5 10, mkT "t2" 1 2 10,
   mkT "t3" 1 9 10, mkT "t4" 2 3 10, mkT "t5" 2 7 10]

/-- Data set for the C6 witness: building `"A"` with total emissions 50
and total energy 100, building `"B"` with total energy 0. -/
def exC6 : List Reading :=
  [{ id := "b1", timestamp := ⟨0, 0⟩, buildingId := "A", deviceId := "D1",
     energyConsumption := 100, carbonEmissions := 50 },
   { id := "b2", timestamp := ⟨0, 1⟩, buildingId := "B", deviceId := "D2",
     energyConsumption := 0, carbonEmissions := 5 }]

/-- Data set for the C10 witness: a single reading on day 0 (so the
daily window of day 7 is empty). -/
def exC10 : List Reading := [mkT "z0" 0 3 5]

end ExampleData

namespace SpecLemmas

open CarbonDataAnalyzer

theorem filterMap_ite {α β : Type} (p : α → Bool) (f : α → β) (l : List α) :
    (l.filterMap fun a => if p a then some (f a) else none) = (l.filter p).map f := by
  induction l with
  | nil => rfl
  | cons a l ih =>
    by_cases h : p a <;> simp [List.filterMap_cons, List.filter_cons, h, ih]

theorem popVar_nonneg (l : List ℚ) : 0 ≤ popVar l := by
  unfold popVar
  apply div_nonneg
  · apply List.sum_nonneg
    intro x hx
    simp only [List.mem_map] at hx
    obtain ⟨y, _, rfl⟩ := hx
    positivity
  · exact_mod_cast Nat.zero_le _

theorem list_sum_nonneg_eq_zero {l : List ℚ} (hnn : ∀ x ∈ l, 0 ≤ x) (h : l.sum = 0) :
    ∀ x ∈ l, x = 0 := by
  induction l with
  | nil => simp
  | cons a l ih =>
    simp only [List.sum_cons] at h
    have ha : 0 ≤ a := hnn a (by simp)
    have hl : 0 ≤ l.sum := List.sum_nonneg (fun x hx => hnn x (by simp [hx]))
    intro x hx
    rcases List.mem_cons.mp hx with rfl | hx
    · linarith
    · exact ih (fun y hy => hnn y (by simp [hy])) (by linarith) x hx

theorem eq_mean_of_popVar_eq_zero {l : List ℚ} (h : popVar l = 0) {x : ℚ} (hx : x ∈ l) :
    x = popMean l := by
  have hlen : (l.length : ℚ) ≠ 0 := by
    have : 0 < l.length := List.length_pos.mpr (List.ne_nil_of_mem hx)
    exact_mod_cast this.ne'
  have hsum : (l.map (fun y => (y - popMean l) ^ 2)).sum = 0 := by
    unfold popVar at h
    rcases div_eq_zero_iff.mp h with h' | h'
    · exact h'
    · exact absurd h' hlen
  have hz := list_sum_nonneg_eq_zero
    (l := l.map (fun y => (y - popMean l) ^ 2))
    (by
      intro y hy
      simp only [List.mem_map] at hy
      obtain ⟨z, _, rfl⟩ := hy
      positivity)
    hsum
  have hx2 : (x - popMean l) ^ 2 = 0 := hz _ (List.mem_map_of_mem _ hx)
  have := pow_eq_zero_iff (n := 2) (by norm_num) |>.mp hx2
  linarith [sub_eq_zero.mp this]

theorem absGt_of_var_ne (x m v t : ℚ) (hv : v ≠ 0) (hvnn : 0 ≤ v) (ht : 0 ≤ t) :
    (zscore x m v).absGt t = decide (t ^ 2 * v < (x - m) ^ 2) := by
  have hvpos : 0 < v := lt_of_le_of_ne hvnn (Ne.symm hv)
  unfold zscore
  rw [if_neg hv]
  show (if t < 0 then true else decide (t ^ 2 < (x - m) ^ 2 / v)) = _
  rw [if_neg (not_lt.mpr ht)]
  exact decide_eq_decide.mpr (lt_div_iff₀ hvpos)

theorem trendStrength_strong_iff (r2 : ℚ) : trendStrength r2 = "strong" ↔ 7/10 < r2 := by
  unfold trendStrength
  split_ifs with h1 h2
  · simp [h1]
  · constructor
    · intro h; exact absurd h (by decide)
    · intro h; exact absurd h h1
  · constructor
    · intro h; exact absurd h (by decide)
    · intro h; exact absurd h h1

theorem trendStrength_moderate_iff (r2 : ℚ) :
    trendStrength r2 = "moderate" ↔ (3/10 < r2 ∧ r2 ≤ 7/10) := by
  unfold trendStrength
  split_ifs with h1 h2
  · constructor
    · intro h; exact absurd h (by decide)
    · intro h; exact absurd h1 (not_lt.mpr h.2)
  · simp [h2, not_lt.mp h1]
  · constructor
    · intro h; exact absurd h (by decide)
    · intro h; exact absurd h.1 h2

theorem trendStrength_weak_iff (r2 : ℚ) : trendStrength r2 = "weak" ↔ r2 ≤ 3/10 := by
  unfold trendStrength
  split_ifs with h1 h2
  · constructor
    · intro h; exact absurd h (by decide)
    · intro h; exact absurd h1 (not_lt.mpr (h.trans (by norm_num)))
  · constructor
    · intro h; exact absurd h (by decide)
    · intro h; exact absurd h2 (not_lt.mpr h)
  · simp [not_lt.mp h2]

theorem trendDirection_inc_iff (s : ℚ) : trendDirection s = "increasing" ↔ 0 < s := by
  unfold trendDirection
  split_ifs with h1 h2
  · simp [h1]
  · constructor
    · intro h; exact absurd h (by decide)
    · intro h; exact absurd h h1
  · constructor
    · intro h; exact absurd h (by decide)
    · intro h; exact absurd h h1

theorem trendDirection_dec_iff (s : ℚ) : trendDirection s = "decreasing" ↔ s < 0 := by
  unfold trendDirection
  split_ifs with h1 h2
  · constructor
    · intro h; exact absurd h (by decide)
    · intro h; exact absurd h1 (asymm h)
  · simp [h2]
  · constructor
    · intro h; exact absurd h (by decide)
    · intro h; exact absurd h h2

theorem trendDirection_stable_iff (s : ℚ) : trendDirection s = "stable" ↔ s = 0 := by
  unfold trendDirection
  split_ifs with h1 h2
  · constructor
    · intro h; exact absurd h (by decide)
    · intro h; exact absurd h1 (by simp [h])
  · constructor
    · intro h; exact absurd h (by decide)
    · intro h; exact absurd h2 (by simp [h])
  · simp [le_antisymm (not_lt.mp h1) (not_lt.mp h2)]

theorem list_sum_const {l : List ℚ} {c : ℚ} (h : ∀ y ∈ l, y = c) :
    l.sum = l.length * c := by
  induction l with
  | nil => simp
  | cons a l ih =>
    have ha := h a (by simp)
    have := ih (fun y hy => h y (by simp [hy]))
    simp only [List.sum_cons, List.length_cons, this, ha]
    push_cast
    ring

theorem yMean_const {ys : List ℚ} {c : ℚ} (h : ∀ y ∈ ys, y = c) (hne : ys ≠ []) :
    yMean ys = c := by
  have hlen : (ys.length : ℚ) ≠ 0 := by
    have : 0 < ys.length := List.length_pos.mpr hne
    exact_mod_cast this.ne'
  unfold yMean
  rw [list_sum_const h, mul_comm, mul_div_assoc, div_self hlen, mul_one]

theorem getD_const {ys : List ℚ} {c : ℚ} (h : ∀ y ∈ ys, y = c) {i : ℕ}
    (hi : i < ys.length) : ys.getD i 0 = c := by
  rw [List.getD_eq_getElem ys 0 hi]
  exact h _ (List.getElem_mem hi)

theorem regression_const {ys : List ℚ} {c : ℚ} (h : ∀ y ∈ ys, y = c) :
    regSlope ys = 0 ∧ rSquared ys = 0 := by
  by_cases hne : ys = []
  · subst hne
    constructor
    · unfold regSlope regDenom
      simp
    · unfold rSquared ssTotal
      simp
  · have hym : yMean ys = c := yMean_const h hne
    have hnum : regNumer ys = 0 := by
      unfold regNumer
      apply Finset.sum_eq_zero
      intro i hi
      rw [getD_const h (Finset.mem_range.mp hi), hym]
      ring
    have hslope : regSlope ys = 0 := by
      unfold regSlope
      split_ifs with hd
      · rw [hnum, zero_div]
      · rfl
    refine ⟨hslope, ?_⟩
    have hss : ssTotal ys = 0 := by
      unfold ssTotal
      apply Finset.sum_eq_zero
      intro i hi
      rw [getD_const h (Finset.mem_range.mp hi), hym]
      ring
    unfold rSquared
    rw [if_neg (by simp [hss])]

section Grouping

variable {α κ β : Type} [DecidableEq κ]

theorem findVal_upsertKey (k k' : κ) (i : β) (u : β → β) (l : List (κ × β)) :
    findVal k (upsertKey k' i u l) =
      if k' = k then some (u (((findVal k l).getD i))) else findVal k l := by
  induction l with
  | nil => by_cases h : k' = k <;> simp [upsertKey, findVal, h]
  | cons kv rest ih =>
    obtain ⟨k0, v0⟩ := kv
    by_cases hA : k0 = k'
    · subst hA
      by_cases hB : k0 = k
      · subst hB
        simp [upsertKey, findVal]
      · simp [upsertKey, findVal, hB, fun h : k0 = k => hB h]
    · by_cases hB : k0 = k
      · subst hB
        have hk : ¬ (k' = k0) := fun h => hA h.symm
        simp [upsertKey, findVal, hA, hk]
      · simp [upsertKey, findVal, hA, hB, ih]

theorem groupValFrom_nil (ini : α → β) (upd : α → β → β) (o : Option β) :
    groupValFrom ini upd o [] = o := by
  cases o <;> rfl

theorem findVal_foldGroups (key : α → κ) (ini : α → β) (upd : α → β → β) :
    ∀ (l : List α) (acc : List (κ × β)) (k : κ),
      findVal k (l.foldl (fun a r => upsertKey (key r) (ini r) (upd r) a) acc) =
      groupValFrom ini upd (findVal k acc) (l.filter (fun r => key r = k)) := by
  intro l
  induction l with
  | nil => intro acc k; rw [List.foldl_nil, List.filter_nil, groupValFrom_nil]
  | cons r l ih =>
    intro acc k
    rw [List.foldl_cons, ih, findVal_upsertKey, List.filter_cons]
    by_cases h : key r = k
    · rw [if_pos h, if_pos (by simpa using h)]
      cases hfv : findVal k acc with
      | none => rfl
      | some v => rfl
    · rw [if_neg h, if_neg (by simpa using h)]

theorem keys_upsertKey (k : κ) (i : β) (u : β → β) (l : List (κ × β)) :
    (upsertKey k i u l).map Prod.fst =
      if k ∈ l.map Prod.fst then l.map Prod.fst else l.map Prod.fst ++ [k] := by
  induction l with
  | nil => simp [upsertKey]
  | cons kv rest ih =>
    obtain ⟨k0, v0⟩ := kv
    by_cases h : k0 = k
    · subst h
      simp [upsertKey]
    · have : ¬ (k = k0) := fun hh => h hh.symm
      simp only [upsertKey, if_neg h, List.map_cons, List.mem_cons, this, false_or, ih]
      by_cases hm : k ∈ rest.map Prod.fst <;> simp [hm]

theorem nodupKeys_upsertKey {k : κ} {i : β} {u : β → β} {l : List (κ × β)}
    (h : (l.map Prod.fst).Nodup) : ((upsertKey k i u l).map Prod.fst).Nodup := by
  rw [keys_upsertKey]
  split_ifs with hm
  · exact h
  · rw [List.nodup_append]
    exact ⟨h, List.nodup_singleton k, by simpa using hm⟩

theorem nodupKeys_foldGroups (key : α → κ) (ini : α → β) (upd : α → β → β) :
    ∀ (l : List α) (acc : List (κ × β)), (acc.map Prod.fst).Nodup →
      ((l.foldl (fun a r => upsertKey (key r) (ini r) (upd r) a) acc).map Prod.fst).Nodup := by
  intro l
  induction l with
  | nil => intro acc h; exact h
  | cons r l ih =>
    intro acc h
    exact ih _ (nodupKeys_upsertKey h)

theorem findVal_of_mem {k : κ} {v : β} {l : List (κ × β)}
    (h : (l.map Prod.fst).Nodup) (hm : (k, v) ∈ l) : findVal k l = some v := by
  induction l with
  | nil => cases hm
  | cons kv rest ih =>
    obtain ⟨k0, v0⟩ := kv
    rcases List.mem_cons.mp hm with heq | hmem
    · cases heq
      simp [findVal]
    · have h' := List.nodup_cons.mp (show (k0 :: rest.map Prod.fst).Nodup by simpa using h)
      have hk : k0 ≠ k := by
        intro hk
        subst hk
        exact h'.1 (List.mem_map_of_mem Prod.fst hmem)
      simp only [findVal, if_neg hk]
      exact ih h'.2 hmem

theorem sum_measure_upsertKey {m : β → ℚ} {c : ℚ} {u : β → β}
    (hu : ∀ b, m (u b) = m b + c) {i : β} (hi : m i = 0) (k : κ) (l : List (κ × β)) :
    ((upsertKey k i u l).map (fun kv => m kv.2)).sum =
      (l.map (fun kv => m kv.2)).sum + c := by
  induction l with
  | nil => simp [upsertKey, hu, hi]
  | cons kv rest ih =>
    obtain ⟨k0, v0⟩ := kv
    by_cases h : k0 = k
    · simp [upsertKey, h, hu]
      ring
    · simp [upsertKey, h, ih]
      ring

theorem sum_measure_foldGroups (key : α → κ) (ini : α → β) (upd : α → β → β)
    {f : α → ℚ} {m : β → ℚ}
    (hu : ∀ r b, m (upd r b) = m b + f r) (hi : ∀ r, m (ini r) = 0) :
    ∀ (l : List α) (acc : List (κ × β)),
      ((l.foldl (fun a r => upsertKey (key r) (ini r) (upd r) a) acc).map
        (fun kv => m kv.2)).sum =
      (acc.map (fun kv => m kv.2)).sum + (l.map f).sum := by
  intro l
  induction l with
  | nil => intro acc; simp
  | cons r l ih =>
    intro acc
    rw [List.foldl_cons, ih, sum_measure_upsertKey (hu r) (hi r), List.map_cons,
      List.sum_cons]
    ring

theorem measure_groupRun {m : β → ℚ} {f : α → ℚ} {upd : α → β → β}
    (hu : ∀ r b, m (upd r b) = m b + f r) :
    ∀ (l : List α) (b : β), m (groupRun upd b l) = m b + (l.map f).sum := by
  intro l
  induction l with
  | nil => intro b; simp [groupRun]
  | cons r l ih =>
    intro b
    show m (groupRun upd (upd r b) l) = _
    rw [ih, hu, List.map_cons, List.sum_cons]
    ring

theorem proj_groupRun {γ : Type} (g : β → γ) (w : α → γ → γ) {upd : α → β → β}
    (hw : ∀ r b, g (upd r b) = w r (g b)) :
    ∀ (l : List α) (b : β), g (groupRun upd b l) = groupRun w (g b) l := by
  intro l
  induction l with
  | nil => intro b; rfl
  | cons r l ih =>
    intro b
    show g (groupRun upd (upd r b) l) = groupRun w (w r (g b)) l
    rw [ih, hw]

end Grouping

theorem round4_zero : round4 0 = 0 := by
  norm_num [round4]

theorem round2_zero : round2 0 = 0 := by
  norm_num [round2]

theorem foldl_strRows {α : Type} (f : α → String) :
    ∀ (l : List α) (s : String),
      l.foldl (fun acc x => acc ++ f x) s = s ++ strRows f l := by
  intro l
  induction l with
  | nil =>
    intro s
    show s = s ++ ""
    rw [String.append_empty]
  | cons x l ih =>
    intro s
    show l.foldl _ (s ++ f x) = _
    rw [ih (s ++ f x)]
    show (s ++ f x) ++ strRows f l = s ++ (f x ++ strRows f l)
    rw [String.append_assoc]

theorem csv_daily_eq (r : ReportGenerator.DailyReport) :
    ReportGenerator.exportReportAsCsv (ReportGenerator.Report.daily r) =
      "Report Type,daily\n" ++
      ("Date," ++ r.date ++ "\n") ++
      "\n" ++
      "SUMMARY\n" ++ ReportGenerator.csvDailySummary r.summary ++
      "\n" ++
      "BUILDINGS\n" ++
      "Building,Total Emissions (kg CO2),Total Energy (kWh),Reading Count\n" ++
      strRows ReportGenerator.csvBuildingRow r.buildings ++
      "\n" ++
      "HOURLY DATA\n" ++
      "Hour,Total Emissions (kg CO2),Total Energy (kWh),Reading Count\n" ++
      strRows ReportGenerator.csvHourRow r.hourly ++
      "\n" ++
      "RECOMMENDATIONS\n" ++
      "Priority,Category,Recommendation\n" ++
      strRows ReportGenerator.csvRecRow r.recommendations := by
  show _ ++ r.buildings.foldl (fun acc b => acc ++ ReportGenerator.csvBuildingRow b) "" ++
    _ ++ _ ++ _ ++ r.hourly.foldl (fun acc h => acc ++ ReportGenerator.csvHourRow h) "" ++
    _ ++ _ ++ _ ++
    r.recommendations.foldl (fun acc rc => acc ++ ReportGenerator.csvRecRow rc) "" = _
  rw [foldl_strRows, foldl_strRows, foldl_strRows, String.empty_append,
    String.empty_append, String.empty_append]

theorem csv_weekly_eq (r : ReportGenerator.WeeklyReport) :
    ReportGenerator.exportReportAsCsv (ReportGenerator.Report.weekly r) =
      "Report Type,weekly\n" ++
      ("Start Date," ++ r.startDate ++ "\n") ++
      ("End Date," ++ r.endDate ++ "\n") ++
      "\n" ++
      "SUMMARY\n" ++ ReportGenerator.csvWeeklySummary r.summary ++
      "\n" ++
      "BUILDINGS\n" ++
      "Building,Total Emissions (kg CO2),Total Energy (kWh),Reading Count\n" ++
      strRows ReportGenerator.csvBuildingRow r.buildings ++
      "\n" ++
      "DAILY DATA\n" ++
      "Date,Day,Total Emissions (kg CO2),Total Energy (kWh),Reading Count\n" ++
      strRows ReportGenerator.csvDayRow r.daily ++
      "\n" ++
      "RECOMMENDATIONS\n" ++
      "Priority,Category,Recommendation\n" ++
      strRows ReportGenerator.csvRecRow r.recommendations := by
  show _ ++ r.buildings.foldl (fun acc b => acc ++ ReportGenerator.csvBuildingRow b) "" ++
    _ ++ _ ++ _ ++ r.daily.foldl (fun acc d => acc ++ ReportGenerator.csvDayRow d) "" ++
    _ ++ _ ++ _ ++
    r.recommendations.foldl (fun acc rc => acc ++ ReportGenerator.csvRecRow rc) "" = _
  rw [foldl_strRows, foldl_strRows, foldl_strRows, String.empty_append,
    String.empty_append, String.empty_append]

theorem csv_monthly_eq (r : ReportGenerator.MonthlyReport) :
    ReportGenerator.exportReportAsCsv (ReportGenerator.Report.monthly r) =
      "Report Type,monthly\n" ++
      ("Year," ++ toString r.year ++ "\n") ++
      ("Month," ++ toString r.month ++ "\n") ++
      "\n" ++
      "SUMMARY\n" ++ ReportGenerator.csvMonthlySummary r.summary ++
      "\n" ++
      "BUILDINGS\n" ++
      "Building,Total Emissions (kg CO2),Total Energy (kWh),Reading Count\n" ++
      strRows ReportGenerator.csvBuildingRow r.buildings ++
      "\n" ++
      "DAILY DATA\n" ++
      "Date,Day,Total Emissions (kg CO2),Total Energy (kWh),Reading Count\n" ++
      strRows ReportGenerator.csvDayRow r.daily ++
      "\n" ++
      "RECOMMENDATIONS\n" ++
      "Priority,Category,Recommendation\n" ++
      strRows ReportGenerator.csvRecRow r.recommendations := by
  show _ ++ r.buildings.foldl (fun acc b => acc ++ ReportGenerator.csvBuildingRow b) "" ++
    _ ++ _ ++ _ ++ r.daily.foldl (fun acc d => acc ++ ReportGenerator.csvDayRow d) "" ++
    _ ++ _ ++ _ ++
    r.recommendations.foldl (fun acc rc => acc ++ ReportGenerator.csvRecRow rc) "" = _
  rw [foldl_strRows, foldl_strRows, foldl_strRows, String.empty_append,
    String.empty_append, String.empty_append]

theorem intensityGroups_keys_nodup (data : List Reading) :
    ((intensityGroups data).map Prod.fst).Nodup := by
  show ((data.foldl (fun a r => upsertKey r.buildingId (bIni r) (bUpd r) a) []).map
    Prod.fst).Nodup
  exact nodupKeys_foldGroups (fun r => r.buildingId) bIni bUpd data [] (by simp)

theorem intensityGroups_findVal (data : List Reading) (k : String) :
    findVal k (intensityGroups data) =
      groupValFrom bIni bUpd none (data.filter (fun r => r.buildingId = k)) := by
  show findVal k (data.foldl (fun a r => upsertKey r.buildingId (bIni r) (bUpd r) a) []) = _
  exact findVal_foldGroups (fun r => r.buildingId) bIni bUpd data [] k

theorem intensityGroups_spec (data : List Reading) :
    ∀ kb ∈ intensityGroups data,
      kb.2.totalEmissions =
        ((data.filter (fun r => r.buildingId = kb.1)).map Reading.carbonEmissions).sum ∧
      kb.2.totalEnergy =
        ((data.filter (fun r => r.buildingId = kb.1)).map Reading.energyConsumption).sum ∧
      ∀ kd ∈ kb.2.devices,
        kd.2.totalEmissions =
          ((data.filter (fun r => r.buildingId = kb.1 ∧ r.deviceId = kd.1)).map
            Reading.carbonEmissions).sum ∧
        kd.2.totalEnergy =
          ((data.filter (fun r => r.buildingId = kb.1 ∧ r.deviceId = kd.1)).map
            Reading.energyConsumption).sum := by
  intro kb hkb
  have hfv : findVal kb.1 (intensityGroups data) = some kb.2 := by
    obtain ⟨k, v⟩ := kb
    exact findVal_of_mem (intensityGroups_keys_nodup data) hkb
  rw [intensityGroups_findVal] at hfv
  have hff : ∀ k' : String,
      ((data.filter (fun r => r.buildingId = kb.1)).filter (fun r => r.deviceId = k')) =
      data.filter (fun r => r.buildingId = kb.1 ∧ r.deviceId = k') := by
    intro k'
    rw [List.filter_filter]
    apply List.filter_congr
    intro r _
    simp [Bool.and_comm]
  cases hflc : data.filter (fun r => r.buildingId = kb.1) with
  | nil =>
    rw [hflc, groupValFrom_nil] at hfv
    cases hfv
  | cons r0 rest =>
    rw [hflc] at hfv
    have hv : kb.2 = groupRun bUpd (bUpd r0 (bIni r0)) rest :=
      (Option.some.inj hfv).symm
    have hsum_e : kb.2.totalEmissions = ((r0 :: rest).map Reading.carbonEmissions).sum := by
      rw [hv, measure_groupRun (m := BldAcc.totalEmissions)
        (f := Reading.carbonEmissions) (fun r b => rfl)]
      show 0 + r0.carbonEmissions + (rest.map Reading.carbonEmissions).sum = _
      rw [List.map_cons, List.sum_cons]
      ring
    have hsum_E : kb.2.totalEnergy = ((r0 :: rest).map Reading.energyConsumption).sum := by
      rw [hv, measure_groupRun (m := BldAcc.totalEnergy)
        (f := Reading.energyConsumption) (fun r b => rfl)]
      show 0 + r0.energyConsumption + (rest.map Reading.energyConsumption).sum = _
      rw [List.map_cons, List.sum_cons]
      ring
    refine ⟨hsum_e, hsum_E, ?_⟩
    -- device level: `kb.2.devices` is the device fold over the filtered list
    have hdev : kb.2.devices =
        (r0 :: rest).foldl (fun a r => upsertKey r.deviceId (dIni r) (dUpd r) a) [] := by
      rw [hv, proj_groupRun BldAcc.devices (fun r ds => addDevice r ds) (fun r b => rfl)]
      rfl
    have hdnodup : ((kb.2.devices).map Prod.fst).Nodup := by
      rw [hdev]
      exact nodupKeys_foldGroups (fun r => r.deviceId) dIni dUpd (r0 :: rest) [] (by simp)
    intro kd hkd
    have hdfv : findVal kd.1 kb.2.devices = some kd.2 := by
      obtain ⟨k', v'⟩ := kd
      exact findVal_of_mem hdnodup hkd
    rw [hdev, findVal_foldGroups (fun r => r.deviceId) dIni dUpd (r0 :: rest) [] kd.1] at hdfv
    have hfl2 : (r0 :: rest).filter (fun r => r.deviceId = kd.1) =
        data.filter (fun r => r.buildingId = kb.1 ∧ r.deviceId = kd.1) := by
      rw [← hflc, hff]
    cases hdc : (r0 :: rest).filter (fun r => r.deviceId = kd.1) with
    | nil =>
      rw [hdc, groupValFrom_nil] at hdfv
      cases hdfv
    | cons s0 srest =>
      rw [hdc] at hdfv
      have hdv : kd.2 = groupRun dUpd (dUpd s0 (dIni s0)) srest :=
        (Option.some.inj hdfv).symm
      constructor
      · rw [← hfl2, hdc, hdv, measure_groupRun (m := DevAcc.totalEmissions)
          (f := Reading.carbonEmissions) (fun r b => rfl)]
        show 0 + s0.carbonEmissions + (srest.map Reading.carbonEmissions).sum = _
        rw [List.map_cons, List.sum_cons]
        ring
      · rw [← hfl2, hdc, hdv, measure_groupRun (m := DevAcc.totalEnergy)
          (f := Reading.energyConsumption) (fun r b => rfl)]
        show 0 + s0.energyConsumption + (srest.map Reading.energyConsumption).sum = _
        rw [List.map_cons, List.sum_cons]
        ring

theorem intensityGroups_sum_em (data : List Reading) :
    ((intensityGroups data).map (fun kb => kb.2.totalEmissions)).sum =
      (data.map Reading.carbonEmissions).sum := by
  have := sum_measure_foldGroups (fun r => r.buildingId) bIni bUpd
    (f := Reading.carbonEmissions) (m := BldAcc.totalEmissions)
    (fun r b => rfl) (fun r => rfl) data []
  simpa using this

theorem intensityGroups_sum_en (data : List Reading) :
    ((intensityGroups data).map (fun kb => kb.2.totalEnergy)).sum =
      (data.map Reading.energyConsumption).sum := by
  have := sum_measure_foldGroups (fun r => r.buildingId) bIni bUpd
    (f := Reading.energyConsumption) (m := BldAcc.totalEnergy)
    (fun r b => rfl) (fun r => rfl) data []
  simpa using this

theorem specForecastSeq_shift (start slope : ℚ) (n : ℕ) :
    specForecastSeq start slope (n + 1) =
    specForecastSeq (max 0 (start + slope)) slope n := by
  induction n with
  | zero => rfl
  | succ n ih =>
    show max 0 (specForecastSeq start slope (n + 1) + slope) = _
    rw [ih]
    rfl

theorem forecastLoop_values (interval : String) (lastDay : ℤ) (slope : ℚ) :
    ∀ (n : ℕ) (cur : ℚ) (i : ℕ),
      (forecastLoop interval lastDay slope cur i n).map FPoint.forecast =
      (List.range n).map (fun j => round2 (specForecastSeq cur slope (j + 1))) := by
  intro n
  induction n with
  | zero => intro cur i; rfl
  | succ n ih =>
    intro cur i
    show round2 (max 0 (cur + slope)) ::
        (forecastLoop interval lastDay slope (max 0 (cur + slope)) (i + 1) n).map
          FPoint.forecast = _
    rw [List.range_succ_eq_map, List.map_cons, List.map_map, ih (max 0 (cur + slope)) (i + 1)]
    congr 1
    apply List.map_congr_left
    intro j _
    show round2 (specForecastSeq (max 0 (cur + slope)) slope (j + 1)) =
      round2 (specForecastSeq cur slope (j + 1 + 1))
    rw [specForecastSeq_shift cur slope (j + 1)]

theorem round2_nonneg {q : ℚ} (h : 0 ≤ q) : 0 ≤ round2 q := by
  unfold round2
  apply div_nonneg _ (by norm_num)
  have h0 : (0 : ℤ) ≤ round (q * 100) := by
    rw [round_eq]
    exact Int.le_floor.mpr (by push_cast; linarith)
  exact_mod_cast h0

theorem trends_map_avg (interval : String) {data : List Reading} (hne : data ≠ []) :
    (identifyTrends interval data).trends.map TrendPoint.averageEmissions =
    trendYs interval data := by
  simp only [identifyTrends, if_neg hne]
  rw [List.map_map]
  show (trendBases interval data).enum.map
    (TrendBase.averageEmissions ∘ Prod.snd) = _
  rw [← List.map_map, List.enum_map_snd]
  rfl

end SpecLemmas

open CarbonDataAnalyzer SpecLemmas

/-- Claim C1: for a data set of at least 5 readings in which both metrics
have nonzero population variance and a threshold `t ≥ 0`,
`detectAnomalies` returns exactly (the anomaly records of) those readings
whose emissions or energy z-score exceeds `t` in absolute value.  Since
`σ > 0` and `t ≥ 0`, the condition `|(x − μ)/σ| > t` is phrased in the
equivalent squared form `t²·σ² < (x − μ)²`. -/
theorem detectAnomalies_flags_exactly (data : List Reading) (t : ℚ)
    (h5 : 5 ≤ data.length)
    (hve : emissionsVar data ≠ 0) (hvE : energyVar data ≠ 0) (ht : 0 ≤ t) :
    detectAnomalies data t =
      (data.filter fun r =>
        decide (t ^ 2 * emissionsVar data < (r.carbonEmissions - emissionsMean data) ^ 2) ||
        decide (t ^ 2 * energyVar data < (r.energyConsumption - energyMean data) ^ 2)).map
        (anomalyOf data) := by
  unfold detectAnomalies
  rw [if_neg (by omega), filterMap_ite (anomalyCond data t) (anomalyOf data) data]
  congr 1
  apply List.filter_congr
  intro r _
  unfold anomalyCond
  rw [absGt_of_var_ne _ _ _ _ hve (popVar_nonneg _) ht,
    absGt_of_var_ne _ _ _ _ hvE (popVar_nonneg _) ht]

/-- Witness for C1: on the spec's example (10 readings, emissions
`[10,…,10,100]`, threshold 2) exactly the reading with emissions 100 is
flagged. -/
theorem detectAnomalies_flags_exactly_witness :
    5 ≤ exC1.length ∧ emissionsVar exC1 ≠ 0 ∧ energyVar exC1 ≠ 0 ∧ ((0:ℚ) ≤ 2) ∧
    (detectAnomalies exC1 2).map Anomaly.id = ["r9"] := by
  refine ⟨by decide, by decide, by decide, by norm_num, ?_⟩
  rw [detectAnomalies_flags_exactly exC1 2 (by decide) (by decide) (by decide) (by norm_num)]
  decide

/-- Claim C3 counterexample: on `exC3` (5 readings, emissions variance 0,
energy flags the last reading at threshold 1), the returned anomaly's
`emissionsZScore` field is `NaN` — a non-finite value does appear in a
field of a returned anomaly, refuting the claim as stated. -/
theorem detectAnomalies_nan_counterexample :
    (detectAnomalies exC3 1).map Anomaly.emissionsZScore = [ZScore.nan] := by
  decide

/-- Claim C3 (amended): with at least 5 readings, whenever a metric has
population variance 0, `detectAnomalies` flags no reading on account of
that metric — only the other metric's condition selects readings — but
this happens through `NaN` comparison fallthrough, not an explicit guard:
every returned anomaly's z-score field for the zero-variance metric is
`NaN` (a non-finite value). -/
theorem detectAnomalies_zero_variance (data : List Reading) (t : ℚ)
    (h5 : 5 ≤ data.length) :
    (emissionsVar data = 0 →
      detectAnomalies data t =
        (data.filter fun r =>
          (zscore r.energyConsumption (energyMean data) (energyVar data)).absGt t).map
          (anomalyOf data) ∧
      ∀ a ∈ detectAnomalies data t, a.emissionsZScore = ZScore.nan) ∧
    (energyVar data = 0 →
      detectAnomalies data t =
        (data.filter fun r =>
          (zscore r.carbonEmissions (emissionsMean data) (emissionsVar data)).absGt t).map
          (anomalyOf data) ∧
      ∀ a ∈ detectAnomalies data t, a.energyZScore = ZScore.nan) := by
  have hnan_e : emissionsVar data = 0 → ∀ r ∈ data,
      zscore r.carbonEmissions (emissionsMean data) (emissionsVar data) = ZScore.nan := by
    intro hv r hr
    have hx : r.carbonEmissions = emissionsMean data :=
      eq_mean_of_popVar_eq_zero hv (List.mem_map_of_mem _ hr)
    unfold zscore
    rw [if_pos hv, if_pos hx]
  have hnan_E : energyVar data = 0 → ∀ r ∈ data,
      zscore r.energyConsumption (energyMean data) (energyVar data) = ZScore.nan := by
    intro hv r hr
    have hx : r.energyConsumption = energyMean data :=
      eq_mean_of_popVar_eq_zero hv (List.mem_map_of_mem _ hr)
    unfold zscore
    rw [if_pos hv, if_pos hx]
  constructor
  · intro hv
    constructor
    · unfold detectAnomalies
      rw [if_neg (by omega), filterMap_ite (anomalyCond data t) (anomalyOf data) data]
      congr 1
      apply List.filter_congr
      intro r hr
      unfold anomalyCond
      rw [hnan_e hv r hr]
      rfl
    · intro a ha
      unfold detectAnomalies at ha
      rw [if_neg (by omega), filterMap_ite (anomalyCond data t) (anomalyOf data) data] at ha
      simp only [List.mem_map, List.mem_filter] at ha
      obtain ⟨r, ⟨hr, _⟩, rfl⟩ := ha
      show zscore r.carbonEmissions (emissionsMean data) (emissionsVar data) = ZScore.nan
      exact hnan_e hv r hr
  · intro hv
    constructor
    · unfold detectAnomalies
      rw [if_neg (by omega), filterMap_ite (anomalyCond data t) (anomalyOf data) data]
      congr 1
      apply List.filter_congr
      intro r hr
      unfold anomalyCond
      rw [hnan_E hv r hr]
      simp [ZScore.absGt]
    · intro a ha
      unfold detectAnomalies at ha
      rw [if_neg (by omega), filterMap_ite (anomalyCond data t) (anomalyOf data) data] at ha
      simp only [List.mem_map, List.mem_filter] at ha
      obtain ⟨r, ⟨hr, _⟩, rfl⟩ := ha
      show zscore r.energyConsumption (energyMean data) (energyVar data) = ZScore.nan
      exact hnan_E hv r hr

/-- Witness for the amended C3 at `exC3`: emissions variance is 0, the
hypothesis `5 ≤ length` holds, and exactly one anomaly (flagged through
energy) is returned. -/
theorem detectAnomalies_zero_variance_witness :
    5 ≤ exC3.length ∧ emissionsVar exC3 = 0 ∧ (detectAnomalies exC3 1).length = 1 := by
  refine ⟨by decide, by decide, ?_⟩
  rw [((detectAnomalies_zero_variance exC3 1 (by decide)).1 (by decide)).1]
  decide

/-- Claim C2: for every non-empty reading set and interval,
`identifyTrends` computes R² as `1 − SS_residual/SS_total` with the
explicit `SS_total = 0 → R² = 0` guard (all quantities spelled out as
sums over the bucket averages), classifies strength and direction by the
documented thresholds on the unrounded values, sets
`hasSignificantTrend = (|slope| > 0.1 ∧ R² > 0.3)`, and on constant
bucket averages yields slope 0, R² = 0 (without division error, every
operation being total) and strength `"weak"`. -/
theorem identifyTrends_regression (data : List Reading) (interval : String)
    (hne : data ≠ []) :
    ∃ a, (identifyTrends interval data).analysis = some a ∧
      (let ys := trendYs interval data
       let n := ys.length
       let xm := (∑ i in Finset.range n, (i : ℚ)) / n
       let ym := ys.sum / n
       let num := ∑ i in Finset.range n, ((i : ℚ) - xm) * (ys.getD i 0 - ym)
       let den := ∑ i in Finset.range n, ((i : ℚ) - xm) ^ 2
       let slope := if den ≠ 0 then num / den else 0
       let icept := ym - slope * xm
       let ssRes := ∑ i in Finset.range n, (ys.getD i 0 - (slope * i + icept)) ^ 2
       let ssTot := ∑ i in Finset.range n, (ys.getD i 0 - ym) ^ 2
       let r2 := if ssTot ≠ 0 then 1 - ssRes / ssTot else 0
       a.rSquared = round4 r2 ∧
       a.slope = round4 slope ∧
       (a.strength = "strong" ↔ 7/10 < r2) ∧
       (a.strength = "moderate" ↔ (3/10 < r2 ∧ r2 ≤ 7/10)) ∧
       (a.strength = "weak" ↔ r2 ≤ 3/10) ∧
       (a.direction = "increasing" ↔ 0 < slope) ∧
       (a.direction = "decreasing" ↔ slope < 0) ∧
       (a.direction = "stable" ↔ slope = 0) ∧
       ((identifyTrends interval data).hasSignificantTrend = true ↔
         (1/10 < |slope| ∧ 3/10 < r2)) ∧
       (∀ c : ℚ, (∀ y ∈ ys, y = c) → slope = 0 ∧ r2 = 0 ∧ a.strength = "weak")) := by
  refine ⟨trendAnalysisOf interval data, by simp [identifyTrends, hne], ?_⟩
  have hsig : (identifyTrends interval data).hasSignificantTrend =
      (decide (1/10 < |regSlope (trendYs interval data)|) &&
       decide (3/10 < rSquared (trendYs interval data))) := by
    simp [identifyTrends, hne]
  show round4 (rSquared (trendYs interval data)) = round4 (rSquared (trendYs interval data)) ∧
    round4 (regSlope (trendYs interval data)) = round4 (regSlope (trendYs interval data)) ∧
    (trendStrength (rSquared (trendYs interval data)) = "strong" ↔
      7/10 < rSquared (trendYs interval data)) ∧
    (trendStrength (rSquared (trendYs interval data)) = "moderate" ↔
      (3/10 < rSquared (trendYs interval data) ∧ rSquared (trendYs interval data) ≤ 7/10)) ∧
    (trendStrength (rSquared (trendYs interval data)) = "weak" ↔
      rSquared (trendYs interval data) ≤ 3/10) ∧
    (trendDirection (regSlope (trendYs interval data)) = "increasing" ↔
      0 < regSlope (trendYs interval data)) ∧
    (trendDirection (regSlope (trendYs interval data)) = "decreasing" ↔
      regSlope (trendYs interval data) < 0) ∧
    (trendDirection (regSlope (trendYs interval data)) = "stable" ↔
      regSlope (trendYs interval data) = 0) ∧
    ((identifyTrends interval data).hasSignificantTrend = true ↔
      (1/10 < |regSlope (trendYs interval data)| ∧
       3/10 < rSquared (trendYs interval data))) ∧
    (∀ c : ℚ, (∀ y ∈ trendYs interval data, y = c) →
      regSlope (trendYs interval data) = 0 ∧ rSquared (trendYs interval data) = 0 ∧
      trendStrength (rSquared (trendYs interval data)) = "weak")
  refine ⟨rfl, rfl, trendStrength_strong_iff _, trendStrength_moderate_iff _,
    trendStrength_weak_iff _, trendDirection_inc_iff _, trendDirection_dec_iff _,
    trendDirection_stable_iff _, ?_, ?_⟩
  · rw [hsig]
    simp [Bool.and_eq_true, decide_eq_true_iff]
  · intro c hc
    have h := regression_const hc
    exact ⟨h.1, h.2, by rw [h.2]; decide⟩

/-- Witness for C2 at `exC2` (three daily buckets of constant average
10): the analysis classifies the trend as `"weak"` and not significant. -/
theorem identifyTrends_regression_witness :
    exC2 ≠ [] ∧
    (identifyTrends "day" exC2).analysis.map TrendAnalysis.strength = some "weak" ∧
    (identifyTrends "day" exC2).hasSignificantTrend = false := by
  obtain ⟨a, ha, hprops⟩ := identifyTrends_regression exC2 "day" (by decide)
  have hconst := hprops.2.2.2.2.2.2.2.2.2 10 (by decide)
  refine ⟨by decide, ?_, by decide⟩
  rw [ha]
  show some a.strength = some "weak"
  exact congrArg some hconst.2.2

/-- Claim C4: with at least 10 readings, `forecast` returns exactly
`periods` forecast points whose values are the 2-decimal roundings of
`f 1, …, f periods` for the recurrence `f 0 = last bucket's average
emissions`, `f (i+1) = max 0 (f i + slope)`, with `slope` the (reported)
regression slope of `identifyTrends` over the same interval; consequently
every reported forecast value is nonnegative. -/
theorem forecast_recurrence (data : List Reading) (periods : ℕ) (interval : String)
    (h10 : 10 ≤ data.length) :
    ∃ a, (identifyTrends interval data).analysis = some a ∧
      (forecast data periods interval).forecast.map FPoint.forecast =
        (List.range periods).map (fun j =>
          round2 (specForecastSeq ((trendYs interval data).getLastD 0) a.slope (j + 1))) ∧
      (forecast data periods interval).forecast.length = periods ∧
      ∀ v ∈ (forecast data periods interval).forecast.map FPoint.forecast, 0 ≤ v := by
  have hne : data ≠ [] := by
    intro h
    rw [h] at h10
    simp at h10
  have hlt : ¬ (data.length < 10) := by omega
  have hproj : (forecast data periods interval).forecast =
      forecastLoop interval (lastKey interval data).dayOf
        (trendAnalysisOf interval data).slope
        (((identifyTrends interval data).trends.map TrendPoint.averageEmissions).getLastD 0)
        0 periods := by
    unfold forecast
    rw [if_neg hlt]
  refine ⟨trendAnalysisOf interval data, by simp [identifyTrends, hne], ?_, ?_, ?_⟩
  · rw [hproj, trends_map_avg interval hne, forecastLoop_values]
  · rw [hproj]
    have := congrArg List.length
      (forecastLoop_values interval (lastKey interval data).dayOf
        (trendAnalysisOf interval data).slope periods
        (((identifyTrends interval data).trends.map TrendPoint.averageEmissions).getLastD 0) 0)
    simpa using this
  · intro v hv
    rw [hproj, trends_map_avg interval hne, forecastLoop_values] at hv
    simp only [List.mem_map, List.mem_range] at hv
    obtain ⟨j, _, rfl⟩ := hv
    exact round2_nonneg (le_max_left 0 _)

/-- Witness for C4 at `exC1` (10 readings, a single day bucket of average
19, slope 0): three forecast points, each 19. -/
theorem forecast_recurrence_witness :
    10 ≤ exC1.length ∧ (forecast exC1 3 "day").forecast.length = 3 ∧
    (forecast exC1 3 "day").forecast.map FPoint.forecast = [19, 19, 19] := by
  obtain ⟨a, ha, hmap, hlen, hpos⟩ := forecast_recurrence exC1 3 "day" (by decide)
  exact ⟨by decide, hlen, by decide⟩

/-- Claim C7 counterexample: with fewer than 10 readings (here `exC3`,
5 readings) the early return of `forecast` carries no `historical` and no
`slope` key — the result does not have the claimed full contract shape
`{historical, forecast, confidence, slope, message}`. -/
theorem forecast_insufficient_counterexample :
    (forecast exC3 7 "day").historical = none ∧ (forecast exC3 7 "day").slope = none :=
  ⟨rfl, rfl⟩

/-- Claim C7 (amended): with fewer than 10 readings `forecast` returns —
totally, without throwing — an object whose `forecast` array is empty,
whose `confidence` is `'low'` and whose `message` explains the
insufficient data, but which omits the `historical` and `slope` fields of
the full contract shape. -/
theorem forecast_insufficient (data : List Reading) (periods : ℕ) (interval : String)
    (h : data.length < 10) :
    forecast data periods interval =
      { historical := none, forecast := [], confidence := "low", slope := none,
        message := "Insufficient historical data for accurate forecasting" } := by
  unfold forecast
  rw [if_pos h]

/-- Witness for the amended C7 at `exC3`. -/
theorem forecast_insufficient_witness :
    exC3.length < 10 ∧ (forecast exC3 7 "day").confidence = "low" ∧
    (forecast exC3 7 "day").forecast = [] := by
  have h := forecast_insufficient exC3 7 "day" (by decide)
  exact ⟨by decide, by rw [h], by rw [h]⟩

/-- Claim C6: `calculateCarbonIntensity` reports, for each building group
and each nested device group, the rounded group totals and an intensity
equal to (the 4-decimal rounding of) total emissions / total energy when
the group's total energy is positive and equal to 0 when it is 0, and the
global average as the sum of all emissions over the sum of all energy
with the same zero guard — all operations being total on `ℚ`, nothing is
thrown and no non-finite value arises. -/
theorem calculateCarbonIntensity_guarded (data : List Reading) :
    (∀ b ∈ (calculateCarbonIntensity data).buildings,
      b.totalEmissions = round2 (((data.filter (fun r => r.buildingId = b.id)).map
        Reading.carbonEmissions).sum) ∧
      b.totalEnergy = round2 (((data.filter (fun r => r.buildingId = b.id)).map
        Reading.energyConsumption).sum) ∧
      (0 < ((data.filter (fun r => r.buildingId = b.id)).map
          Reading.energyConsumption).sum →
        b.intensity = round4 (((data.filter (fun r => r.buildingId = b.id)).map
            Reading.carbonEmissions).sum /
          ((data.filter (fun r => r.buildingId = b.id)).map
            Reading.energyConsumption).sum)) ∧
      (((data.filter (fun r => r.buildingId = b.id)).map
          Reading.energyConsumption).sum = 0 →
        b.intensity = 0) ∧
      (∀ d ∈ b.devices,
        d.totalEmissions = round2 (((data.filter (fun r =>
          r.buildingId = b.id ∧ r.deviceId = d.id)).map Reading.carbonEmissions).sum) ∧
        d.totalEnergy = round2 (((data.filter (fun r =>
          r.buildingId = b.id ∧ r.deviceId = d.id)).map Reading.energyConsumption).sum) ∧
        (0 < ((data.filter (fun r => r.buildingId = b.id ∧ r.deviceId = d.id)).map
            Reading.energyConsumption).sum →
          d.intensity = round4 (((data.filter (fun r =>
              r.buildingId = b.id ∧ r.deviceId = d.id)).map Reading.carbonEmissions).sum /
            ((data.filter (fun r => r.buildingId = b.id ∧ r.deviceId = d.id)).map
              Reading.energyConsumption).sum)) ∧
        (((data.filter (fun r => r.buildingId = b.id ∧ r.deviceId = d.id)).map
            Reading.energyConsumption).sum = 0 →
          d.intensity = 0))) ∧
    (0 < (data.map Reading.energyConsumption).sum →
      (calculateCarbonIntensity data).average =
        round4 ((data.map Reading.carbonEmissions).sum /
          (data.map Reading.energyConsumption).sum)) ∧
    ((data.map Reading.energyConsumption).sum = 0 →
      (calculateCarbonIntensity data).average = 0) := by
  by_cases hd : data = []
  · subst hd
    refine ⟨?_, ?_, ?_⟩
    · intro b hb
      simp [calculateCarbonIntensity] at hb
    · intro h
      simp at h
    · intro _
      simp [calculateCarbonIntensity]
  · have hb_eq : (calculateCarbonIntensity data).buildings =
        List.insertionSort (fun a b => b.intensity ≤ a.intensity)
          ((intensityGroups data).map finishBuilding) := by
      unfold calculateCarbonIntensity
      rw [if_neg hd]
    have hav_eq : (calculateCarbonIntensity data).average =
        round4 (intensityRatio
          ((intensityGroups data).map (fun kb => kb.2.totalEmissions)).sum
          ((intensityGroups data).map (fun kb => kb.2.totalEnergy)).sum) := by
      unfold calculateCarbonIntensity
      rw [if_neg hd]
    refine ⟨?_, ?_, ?_⟩
    · intro b hb
      rw [hb_eq] at hb
      have hb2 : b ∈ (intensityGroups data).map finishBuilding :=
        (List.perm_insertionSort _ _).mem_iff.mp hb
      obtain ⟨kb, hkb, rfl⟩ := List.mem_map.mp hb2
      obtain ⟨hke, hkE, hdev⟩ := intensityGroups_spec data kb hkb
      have hid : (finishBuilding kb).id = kb.1 := rfl
      have hte : (finishBuilding kb).totalEmissions = round2 kb.2.totalEmissions := rfl
      have htE : (finishBuilding kb).totalEnergy = round2 kb.2.totalEnergy := rfl
      have hti : (finishBuilding kb).intensity =
        round4 (intensityRatio kb.2.totalEmissions kb.2.totalEnergy) := rfl
      have hdvs : (finishBuilding kb).devices =
        List.insertionSort (fun a b => b.intensity ≤ a.intensity)
          (kb.2.devices.map finishDevice) := rfl
      simp only [hid, hte, htE, hti, hdvs]
      refine ⟨by rw [hke], by rw [hkE], ?_, ?_, ?_⟩
      · intro hpos
        rw [hke, hkE]
        unfold intensityRatio
        rw [if_pos hpos]
      · intro hz
        rw [hkE]
        unfold intensityRatio
        rw [hz, if_neg (lt_irrefl 0)]
        exact round4_zero
      · intro d hdm
        have hd2 : d ∈ kb.2.devices.map finishDevice :=
          (List.perm_insertionSort _ _).mem_iff.mp hdm
        obtain ⟨kd, hkd, rfl⟩ := List.mem_map.mp hd2
        obtain ⟨hde, hdE⟩ := hdev kd hkd
        have hdid : (finishDevice kd).id = kd.1 := rfl
        have hdte : (finishDevice kd).totalEmissions = round2 kd.2.totalEmissions := rfl
        have hdtE : (finishDevice kd).totalEnergy = round2 kd.2.totalEnergy := rfl
        have hdti : (finishDevice kd).intensity =
          round4 (intensityRatio kd.2.totalEmissions kd.2.totalEnergy) := rfl
        simp only [hdid, hdte, hdtE, hdti]
        refine ⟨by rw [hde], by rw [hdE], ?_, ?_⟩
        · intro hpos
          rw [hde, hdE]
          unfold intensityRatio
          rw [if_pos hpos]
        · intro hz
          rw [hdE]
          unfold intensityRatio
          rw [hz, if_neg (lt_irrefl 0)]
          exact round4_zero
    · intro hpos
      rw [hav_eq, intensityGroups_sum_em, intensityGroups_sum_en]
      unfold intensityRatio
      rw [if_pos hpos]
    · intro hz
      rw [hav_eq, intensityGroups_sum_em, intensityGroups_sum_en]
      unfold intensityRatio
      rw [hz, if_neg (lt_irrefl 0)]
      exact round4_zero

/-- Witness for C6 at `exC6`: building `"A"` (emissions 50, energy 100)
has intensity 0.5, building `"B"` (energy 0) has intensity 0, and the
global average is 55/100. -/
theorem calculateCarbonIntensity_guarded_witness :
    ((calculateCarbonIntensity exC6).buildings.map BuildingIntensity.intensity =
      [1/2, 0]) ∧
    (calculateCarbonIntensity exC6).average = 11/20 := by
  have h := calculateCarbonIntensity_guarded exC6
  refine ⟨by decide, ?_⟩
  have hav := h.2.1 (by decide)
  rw [hav]
  decide

/-- Claim C9: `generateRecommendations` always returns a non-empty list:
with fewer than 10 readings exactly the one generic collect-more-data
recommendation, and with 10 or more readings at least 2 recommendations
(whenever fewer than 2 rule-based recommendations were produced, two
generic efficiency recommendations are appended). -/
theorem generateRecommendations_nonempty (data : List Reading) :
    (data.length < 10 →
      generateRecommendations data =
        [{ type := "general", priority := "medium", target := none,
           text := "Collect more data to enable comprehensive analysis and more specific recommendations." }]) ∧
    (10 ≤ data.length → 2 ≤ (generateRecommendations data).length) ∧
    generateRecommendations data ≠ [] := by
  by_cases h : data.length < 10
  · refine ⟨fun _ => ?_, fun h10 => absurd h (by omega), ?_⟩
    · unfold generateRecommendations
      rw [if_pos h]
    · unfold generateRecommendations
      rw [if_pos h]
      simp
  · refine ⟨fun hlt => absurd hlt h, fun _ => ?_, ?_⟩
    · unfold generateRecommendations
      rw [if_neg h]
      split_ifs with h2
      · rw [List.length_append]
        simp only [List.length_cons, List.length_nil]
        omega
      · omega
    · unfold generateRecommendations
      rw [if_neg h]
      split_ifs with h2
      · simp
      · intro hnil
        rw [hnil] at h2
        exact h2 (by simp)

/-- Witness for C9 at `exC1` restricted to 3 readings: fewer than 10
readings give exactly one generic recommendation. -/
theorem generateRecommendations_nonempty_witness :
    exC3.length < 10 ∧ (generateRecommendations exC3).length = 1 := by
  have h := (generateRecommendations_nonempty exC3).1 (by decide)
  exact ⟨by decide, by rw [h]; rfl⟩

/-- Claim C5: for every reading set and date, the daily report's summary
`totalEmissions` equals the `emissionsTotal` that `getStatistics`
computes over exactly the readings in the day's half-open window
`[start of day, start of next day)` — both being the 2-decimal rounding
of the sum of `carbonEmissions` over that filtered subset. -/
theorem dailyReport_statistics_consistency (data : List Reading) (date : Ts) :
    (ReportGenerator.generateDailyReport data date).summary.totalEmissions =
      (getStatistics (data.filter fun r =>
        Ts.val ⟨date.day, 0⟩ ≤ r.timestamp.val ∧
        r.timestamp.val < Ts.val ⟨date.day + 1, 0⟩)).emissionsTotal := by
  have hfeq : data.filter (ReportGenerator.dailyWindow date) =
      data.filter (fun r =>
        decide (Ts.val ⟨date.day, 0⟩ ≤ r.timestamp.val ∧
          r.timestamp.val < Ts.val ⟨date.day + 1, 0⟩)) := by
    apply List.filter_congr
    intro r _
    unfold ReportGenerator.dailyWindow
    by_cases hA : Ts.val ⟨date.day, 0⟩ ≤ r.timestamp.val <;>
      by_cases hB : r.timestamp.val < Ts.val ⟨date.day + 1, 0⟩ <;>
      simp [hA, hB]
  show round2 (((data.filter (ReportGenerator.dailyWindow date)).map
    Reading.carbonEmissions).sum) = _
  rw [hfeq]
  cases hc : data.filter (fun r =>
      decide (Ts.val ⟨date.day, 0⟩ ≤ r.timestamp.val ∧
        r.timestamp.val < Ts.val ⟨date.day + 1, 0⟩)) with
  | nil => exact round2_zero
  | cons r rs => rfl

/-- Claim C8: for every report produced by the daily, weekly, or monthly
builder, the CSV export is exactly: the `Report Type` line and the
period-identifying lines, a blank line, the `SUMMARY` block, a blank
line, the `BUILDINGS` block with its exact header and one row per
building, a blank line, the time-series block headed `HOURLY DATA`
(daily) or `DAILY DATA` (weekly/monthly), a blank line, and the
`RECOMMENDATIONS` block with header `Priority,Category,Recommendation`
whose rows (`csvRecRow`) wrap each recommendation's text in double
quotes. -/
theorem exportReportAsCsv_layout :
    (∀ (data : List Reading) (date : Ts),
      ReportGenerator.exportReportAsCsv (ReportGenerator.Report.daily
        (ReportGenerator.generateDailyReport data date)) =
      "Report Type,daily\n" ++
      ("Date," ++ (ReportGenerator.generateDailyReport data date).date ++ "\n") ++
      "\n" ++
      "SUMMARY\n" ++
      ReportGenerator.csvDailySummary (ReportGenerator.generateDailyReport data date).summary ++
      "\n" ++
      "BUILDINGS\n" ++
      "Building,Total Emissions (kg CO2),Total Energy (kWh),Reading Count\n" ++
      strRows ReportGenerator.csvBuildingRow
        (ReportGenerator.generateDailyReport data date).buildings ++
      "\n" ++
      "HOURLY DATA\n" ++
      "Hour,Total Emissions (kg CO2),Total Energy (kWh),Reading Count\n" ++
      strRows ReportGenerator.csvHourRow
        (ReportGenerator.generateDailyReport data date).hourly ++
      "\n" ++
      "RECOMMENDATIONS\n" ++
      "Priority,Category,Recommendation\n" ++
      strRows ReportGenerator.csvRecRow
        (ReportGenerator.generateDailyReport data date).recommendations) ∧
    (∀ (data : List Reading) (date : Ts),
      ReportGenerator.exportReportAsCsv (ReportGenerator.Report.weekly
        (ReportGenerator.generateWeeklyReport data date)) =
      "Report Type,weekly\n" ++
      ("Start Date," ++ (ReportGenerator.generateWeeklyReport data date).startDate ++ "\n") ++
      ("End Date," ++ (ReportGenerator.generateWeeklyReport data date).endDate ++ "\n") ++
      "\n" ++
      "SUMMARY\n" ++
      ReportGenerator.csvWeeklySummary (ReportGenerator.generateWeeklyReport data date).summary ++
      "\n" ++
      "BUILDINGS\n" ++
      "Building,Total Emissions (kg CO2),Total Energy (kWh),Reading Count\n" ++
      strRows ReportGenerator.csvBuildingRow
        (ReportGenerator.generateWeeklyReport data date).buildings ++
      "\n" ++
      "DAILY DATA\n" ++
      "Date,Day,Total Emissions (kg CO2),Total Energy (kWh),Reading Count\n" ++
      strRows ReportGenerator.csvDayRow
        (ReportGenerator.generateWeeklyReport data date).daily ++
      "\n" ++
      "RECOMMENDATIONS\n" ++
      "Priority,Category,Recommendation\n" ++
      strRows ReportGenerator.csvRecRow
        (ReportGenerator.generateWeeklyReport data date).recommendations) ∧
    (∀ (data : List Reading) (year : ℤ) (month : ℕ),
      ReportGenerator.exportReportAsCsv (ReportGenerator.Report.monthly
        (ReportGenerator.generateMonthlyReport data year month)) =
      "Report Type,monthly\n" ++
      ("Year," ++ toString (ReportGenerator.generateMonthlyReport data year month).year ++ "\n") ++
      ("Month," ++ toString (ReportGenerator.generateMonthlyReport data year month).month ++ "\n") ++
      "\n" ++
      "SUMMARY\n" ++
      ReportGenerator.csvMonthlySummary
        (ReportGenerator.generateMonthlyReport data year month).summary ++
      "\n" ++
      "BUILDINGS\n" ++
      "Building,Total Emissions (kg CO2),Total Energy (kWh),Reading Count\n" ++
      strRows ReportGenerator.csvBuildingRow
        (ReportGenerator.generateMonthlyReport data year month).buildings ++
      "\n" ++
      "DAILY DATA\n" ++
      "Date,Day,Total Emissions (kg CO2),Total Energy (kWh),Reading Count\n" ++
      strRows ReportGenerator.csvDayRow
        (ReportGenerator.generateMonthlyReport data year month).daily ++
      "\n" ++
      "RECOMMENDATIONS\n" ++
      "Priority,Category,Recommendation\n" ++
      strRows ReportGenerator.csvRecRow
        (ReportGenerator.generateMonthlyReport data year month).recommendations) :=
  ⟨fun data date => csv_daily_eq (ReportGenerator.generateDailyReport data date),
   fun data date => csv_weekly_eq (ReportGenerator.generateWeeklyReport data date),
   fun data year month => csv_monthly_eq (ReportGenerator.generateMonthlyReport data year month)⟩

/-- Claim C10: for a date whose daily window contains no readings,
`generateDailyReport` returns (totally, without error) a report with
all-zero summary, `peakHour = "N/A"`, `peakEmissions = 0`, empty
`buildings` and `hourly`, and exactly one low-priority generic
insufficient-data recommendation. -/
theorem dailyReport_empty_window (data : List Reading) (date : Ts)
    (h : ∀ r ∈ data, ¬ (Ts.val ⟨date.day, 0⟩ ≤ r.timestamp.val ∧
      r.timestamp.val < Ts.val ⟨date.day + 1, 0⟩)) :
    (ReportGenerator.generateDailyReport data date).summary =
      ⟨0, 0, 0, "N/A", 0⟩ ∧
    (ReportGenerator.generateDailyReport data date).buildings = [] ∧
    (ReportGenerator.generateDailyReport data date).hourly = [] ∧
    (ReportGenerator.generateDailyReport data date).recommendations =
      [{ priority := "low", category := "general", building := none, device := none,
         text := "Insufficient data to generate meaningful recommendations. Continue collecting data to improve insights." }] := by
  have hnil : data.filter (ReportGenerator.dailyWindow date) = [] := by
    rw [List.filter_eq_nil_iff]
    intro r hr
    have hwin := h r hr
    unfold ReportGenerator.dailyWindow
    simp only [Bool.and_eq_true, decide_eq_true_eq]
    exact fun hc => hwin hc
  refine ⟨?_, ?_, ?_, ?_⟩ <;>
  · simp only [ReportGenerator.generateDailyReport]
    rw [hnil]
    decide

/-- Witness for C10 at `exC10` and day 7 (no readings that day). -/
theorem dailyReport_empty_window_witness :
    exC10.filter (ReportGenerator.dailyWindow ⟨7, 0⟩) = [] ∧
    (ReportGenerator.generateDailyReport exC10 ⟨7, 0⟩).summary.peakHour = "N/A" ∧
    (ReportGenerator.generateDailyReport exC10 ⟨7, 0⟩).recommendations.length = 1 := by
  have h := dailyReport_empty_window exC10 ⟨7, 0⟩ (by decide)
  refine ⟨by decide, ?_, ?_⟩
  · rw [h.1]
  · rw [h.2.2.2]
    rfl
